import Mathlib

/-! Admin dashboard client (`src/server/admin_script.js`).

A shallow embedding of the browser-side admin script: the module-level caches
and flags, the DOM containers the script writes, the loaders and renderers, the
client-side filter and search functions, the CSV export, the staff-tasks modal,
the choice of the server, the auto-refresh toggle and the refresh tick.

Conventions of the embedding.

* A JSON field of a record is a `JSVal`: a scalar JavaScript value, `undefined`
  standing for an absent key. Numbers are the integers a double holds exactly
  (absolute value at most `2^53 - 1`), which the engine prints in decimal;
  other numbers, nested objects and arrays are outside the model.
* Built-ins whose result depends on the engine's Unicode tables, locale or
  floating point formatting are fields of `Host`.
* The page markup is not part of the script. Every element the script looks up
  with `getElementById` is taken to exist, except those whose presence the script
  tests itself (the statistics counters, the staff-tasks modal, the active
  section); the value of a form control and the `innerHTML` / `textContent` of a
  container are fields of `State`.
* A function that can end with an uncaught exception returns an `Outcome`: the
  state at the moment it ended and the exception, if any.
* A `fetch` is answered by the environment: its result is an argument of the
  loader, and an `async` loader called alone is run to completion in one step.
  In a refresh tick two loaders are in flight at once: each issues its requests
  when it is started (`...Start`) and handles its answers later, step by step
  (`...Steps`), and the environment decides whose answer comes next.
-/

namespace AdminScript

/-! ## JavaScript values -/

/-- A scalar JavaScript value as it arrives in a JSON record. The constructor `num`
stands for an integer a double holds exactly (absolute value at most `2^53 - 1`). -/
inductive JSVal where
  | undefined
  | null
  | bool (b : Bool)
  | num (n : Int)
  | str (s : String)
  deriving DecidableEq, Repr

/-- The exceptions the modelled code can raise. -/
inductive JSError where
  | typeError
  deriving DecidableEq, Repr

namespace JSVal

/-- JavaScript truthiness (`ToBoolean`). -/
def truthy : JSVal → Bool
  | undefined => false
  | null => false
  | bool b => b
  | num n => n != 0
  | str s => s != ""

/-- String conversion as performed by a template literal (`ToString`). An integer
of absolute value at most `2^53 - 1` is printed in decimal. -/
def toStr : JSVal → String
  | undefined => "undefined"
  | null => "null"
  | bool true => "true"
  | bool false => "false"
  | num n => toString n
  | str s => s

/-- Element conversion of `Array.prototype.join`: `undefined` and `null` give the
empty string, every other value its `ToString`. -/
def joinText : JSVal → String
  | undefined => ""
  | null => ""
  | v => v.toStr

/-- The expression `a || b`. -/
def orElse (a b : JSVal) : JSVal := if a.truthy then a else b

/-- The expression `a === b` on scalars. -/
def strictEq : JSVal → JSVal → Bool
  | undefined, undefined => true
  | null, null => true
  | bool a, bool b => a == b
  | num a, num b => a == b
  | str a, str b => a == b
  | _, _ => false

end JSVal

/-- Built-ins of the engine that the script calls and that depend on Unicode
tables, the locale or floating point formatting. -/
structure Host where
  /-- The method `String.prototype.toLowerCase`. -/
  toLowerCase : String → String
  /-- The expression `new Date(v).toLocaleString()`. -/
  dateToLocaleString : JSVal → String
  /-- The expression `(v / 1024).toFixed(2)`. -/
  kilobytes : JSVal → String

/-- Lower-casing of the letters `A` to `Z`, which is what `toLowerCase` does on a
string of ASCII characters. -/
def asciiLower (s : String) : String := String.mk (s.toList.map Char.toLower)

/-- A host used to evaluate the script on concrete ASCII inputs: dates and sizes
are printed through `ToString`. -/
def asciiHost : Host where
  toLowerCase := asciiLower
  dateToLocaleString := fun v => "Date(" ++ v.toStr ++ ")"
  kilobytes := fun v => v.toStr

/-- Does the character list start with `q`? -/
def startsWithChars : List Char → List Char → Bool
  | _, [] => true
  | [], _ :: _ => false
  | c :: cs, q :: qs => c == q && startsWithChars cs qs

/-- Does `q` occur in the character list as a contiguous block? -/
def includesChars : List Char → List Char → Bool
  | [], q => q.isEmpty
  | c :: cs, q => startsWithChars (c :: cs) q || includesChars cs q

/-- The method `String.prototype.includes`. -/
def includes (s q : String) : Bool := includesChars s.toList q.toList

/-- The call `v.toLowerCase()`: a `TypeError` unless `v` is a string. -/
def toLowerCaseOf (js : Host) : JSVal → Except JSError String
  | .str s => .ok (js.toLowerCase s)
  | _ => .error .typeError

/-- The method `Array.prototype.filter` with a callback that may throw: the
callback runs on the elements from left to right and the first exception ends
the call. -/
def jsFilter {α : Type} (p : α → Except JSError Bool) : List α → Except JSError (List α)
  | [] => .ok []
  | x :: xs =>
    match p x with
    | .error e => .error e
    | .ok b =>
      match jsFilter p xs with
      | .error e => .error e
      | .ok rest => .ok (if b then x :: rest else rest)

/-- The method `Array.prototype.join` on an array of scalars. -/
def arrayJoin (sep : String) (xs : List JSVal) : String :=
  String.intercalate sep (xs.map JSVal.joinText)

/-! ## Records -/

/-- A task record of `/admin/all_tasks`, with the fields the script reads. -/
structure Task where
  taskId : JSVal
  studentName : JSVal
  registerNumber : JSVal
  aiCaption : JSVal
  location : JSVal
  status : JSVal
  assignedTo : JSVal
  createdAt : JSVal
  deriving DecidableEq, Repr

/-- A student record of `/admin/all_students`. -/
structure Student where
  name : JSVal
  registerNumber : JSVal
  totalReports : JSVal
  lastActive : JSVal
  deriving DecidableEq, Repr

/-- A media record of `/admin/media_gallery`. The field `type` is named `kind`. -/
structure MediaItem where
  url : JSVal
  kind : JSVal
  filename : JSVal
  size : JSVal
  deriving DecidableEq, Repr

/-! ## State -/

/-- The staff-tasks modal with the elements inside it: whether the modal carries
the class `active`, the `innerHTML` of `staffTasksContent`, the `textContent` of
`staffTasksTitle` and the value of the `staffTasksFilter` control. -/
structure StaffModal where
  active : Bool
  content : String
  title : String
  filter : String
  deriving DecidableEq, Repr

/-- The `textContent` of the statistics counters. The script tests each of these
elements before writing it, so a counter is `none` when the page has no such
element. -/
structure StatsPanel where
  totalStaff : Option String
  totalTasks : Option String
  pendingTasks : Option String
  completedTasks : Option String
  queuedTasks : Option String
  totalStudents : Option String
  deriving DecidableEq, Repr


/-- The module-level variables of the script, the parts of the page it reads and
writes, and the timers and requests it has created. A cache is `none` when it
holds `undefined` (a response body without the expected key). -/
structure State where
  /-- The value of `window.location.origin`. -/
  origin : String
  autoRefreshInterval : Option Nat
  autoRefreshEnabled : Bool
  allTasks : Option (List Task)
  allStudents : Option (List Student)
  allMedia : Option (List MediaItem)
  useAdminServer : Bool
  currentStaffId : JSVal
  currentStaffName : JSVal
  /-- Value of the `taskStatusFilter` control. -/
  taskStatusFilter : String
  /-- Value of the `taskSearch` control. -/
  taskSearch : String
  /-- Value of the `studentSearch` control. -/
  studentSearch : String
  /-- Value of the `mediaTypeFilter` control. -/
  mediaTypeFilter : String
  /-- The `innerHTML` of the `tasksList` container. -/
  tasksList : String
  /-- The `innerHTML` of the `studentsList` container. -/
  studentsList : String
  /-- The `innerHTML` of the `mediaGallery` container. -/
  mediaGallery : String
  /-- The `textContent` of the `autoRefreshIcon` element. -/
  autoRefreshIcon : String
  /-- Handles of the live interval timers. -/
  timers : List Nat
  /-- URLs passed to `fetch`, oldest first. -/
  requests : List String
  /-- The `innerHTML` of the `staffList` container. -/
  staffList : String
  /-- The `innerHTML` of the `recentActivityList` container. -/
  recentActivityList : String
  /-- The `innerHTML` of the `analyticsContent` container. -/
  analyticsContent : String
  /-- Value of the `analyticsRange` control. -/
  analyticsRange : String
  /-- The `textContent` of the `lastUpdate` element. -/
  lastUpdate : String
  /-- The statistics counters. -/
  stats : StatsPanel
  /-- The `id` of the first element matching `.section.active`, `none` when no
  element matches. -/
  activeSection : Option String
  /-- The element `staffTasksModal`, `none` as long as the document has no such
  element. -/
  staffTasksModal : Option StaffModal
  /-- Files handed to the browser for download: name and content, oldest first. -/
  downloads : List (String × String)
  deriving DecidableEq, Repr

/-- The state right after the script has been evaluated, for a page served from
`origin`: empty caches, auto refresh off, no timer, no request; the filter controls
show `all`, the search boxes and the containers are empty, the dashboard section is
the active one and the staff-tasks modal has not been created. -/
def State.initial (origin : String) : State where
  origin := origin
  autoRefreshInterval := none
  autoRefreshEnabled := false
  allTasks := some []
  allStudents := some []
  allMedia := some []
  useAdminServer := true
  currentStaffId := .null
  currentStaffName := .null
  taskStatusFilter := "all"
  taskSearch := ""
  studentSearch := ""
  mediaTypeFilter := "all"
  tasksList := ""
  studentsList := ""
  mediaGallery := ""
  autoRefreshIcon := ""
  timers := []
  requests := []
  staffList := ""
  recentActivityList := ""
  analyticsContent := ""
  analyticsRange := "week"
  lastUpdate := ""
  stats := ⟨some "", some "", some "", some "", some "", some ""⟩
  activeSection := some "dashboard"
  staffTasksModal := none
  downloads := []

/-- How a synchronous function ended: the state it left and the uncaught
exception, if there is one. -/
structure Outcome where
  state : State
  thrown : Option JSError
  deriving DecidableEq, Repr

/-! ## Renderers -/

/-- The markup `displayTasks` produces for one task. -/
def taskCard (js : Host) (task : Task) : String :=
  "\n        <div class=\"task-card\" onclick=\"showTaskDetail('" ++ task.taskId.toStr ++ "')\">" ++
  "\n            <div style=\"display: flex; justify-content: space-between; align-items: start;\">" ++
  "\n                <div>" ++
  "\n                    <h3>" ++ (task.aiCaption.orElse (.str "No caption")).toStr ++ "</h3>" ++
  "\n                    <p><strong>Student:</strong> " ++ task.studentName.toStr ++
    " (" ++ task.registerNumber.toStr ++ ")</p>" ++
  "\n                    <p><strong>Location:</strong> " ++ task.location.toStr ++ "</p>" ++
  "\n                    <p><strong>Assigned to:</strong> " ++ task.assignedTo.toStr ++ "</p>" ++
  "\n                    <p><small>" ++ js.dateToLocaleString task.createdAt ++ "</small></p>" ++
  "\n                </div>" ++
  "\n                <span class=\"status-badge status-" ++ task.status.toStr ++ "\">" ++
    task.status.toStr ++ "</span>" ++
  "\n            </div>" ++
  "\n        </div>" ++
  "\n    "

/-- The function `displayTasks`: writes the `tasksList` container. -/
def displayTasks (js : Host) (tasks : Option (List Task)) (st : State) : State :=
  match tasks with
  | none => { st with tasksList := "<div class=\"loading\">No tasks found</div>" }
  | some [] => { st with tasksList := "<div class=\"loading\">No tasks found</div>" }
  | some (t :: ts) => { st with tasksList := String.join ((t :: ts).map (taskCard js)) }

/-- The markup `displayStudents` produces for one student. -/
def studentCard (js : Host) (student : Student) : String :=
  "\n        <div class=\"student-card\">" ++
  "\n            <h3>" ++ student.name.toStr ++ "</h3>" ++
  "\n            <p>Register Number: " ++ student.registerNumber.toStr ++ "</p>" ++
  "\n            <p>Total Reports: " ++ (student.totalReports.orElse (.num 0)).toStr ++ "</p>" ++
  "\n            <p>Last Active: " ++
    (if student.lastActive.truthy then js.dateToLocaleString student.lastActive else "Never") ++ "</p>" ++
  "\n        </div>" ++
  "\n    "

/-- The function `displayStudents`: writes the `studentsList` container. -/
def displayStudents (js : Host) (students : Option (List Student)) (st : State) : State :=
  match students with
  | none => { st with studentsList := "<div class=\"loading\">No students found</div>" }
  | some [] => { st with studentsList := "<div class=\"loading\">No students found</div>" }
  | some (x :: xs) => { st with studentsList := String.join ((x :: xs).map (studentCard js)) }

/-- The markup `displayMediaGallery` produces for one media item. -/
def mediaCard (js : Host) (item : MediaItem) : String :=
  "\n        <div class=\"media-item\" onclick=\"viewMedia('" ++ item.url.toStr ++ "', '" ++
    item.kind.toStr ++ "')\">" ++
  "\n            " ++
    (if item.kind.strictEq (.str "video") then "<video src=\"" ++ item.url.toStr ++ "\" muted></video>"
     else "<img src=\"" ++ item.url.toStr ++ "\" alt=\"Media\">") ++
  "\n            <div class=\"media-overlay\">" ++
  "\n                <div>" ++ (if item.kind.strictEq (.str "video") then "🎥" else "📷") ++ " " ++
    item.filename.toStr ++ "</div>" ++
  "\n                <div>" ++ js.kilobytes item.size ++ " KB</div>" ++
  "\n            </div>" ++
  "\n        </div>" ++
  "\n    "

/-- The function `displayMediaGallery`: writes the `mediaGallery` container. -/
def displayMediaGallery (js : Host) (media : Option (List MediaItem)) (st : State) : State :=
  match media with
  | none => { st with mediaGallery := "<div class=\"loading\">No media found</div>" }
  | some [] => { st with mediaGallery := "<div class=\"loading\">No media found</div>" }
  | some (x :: xs) => { st with mediaGallery := String.join ((x :: xs).map (mediaCard js)) }

/-! ## Client-side filter and search -/

/-- The function `filterTasks`. With the cache holding `undefined` and a status
other than `all`, the call `allTasks.filter` raises a `TypeError`. -/
def filterTasks (js : Host) (st : State) : Outcome :=
  let status := st.taskStatusFilter
  if status = "all" then
    ⟨displayTasks js st.allTasks st, none⟩
  else
    match st.allTasks with
    | none => ⟨st, some .typeError⟩
    | some tasks =>
      ⟨displayTasks js (some (tasks.filter fun t => t.status.strictEq (.str status))) st, none⟩

/-- The callback of `searchTasks`: the three tests are tried in order and the
chain of `||` stops at the first that holds. -/
def taskMatches (js : Host) (query : String) (t : Task) : Except JSError Bool :=
  match toLowerCaseOf js t.aiCaption with
  | .error e => .error e
  | .ok caption =>
    if includes caption query then .ok true
    else
      match toLowerCaseOf js t.studentName with
      | .error e => .error e
      | .ok name =>
        if includes name query then .ok true
        else
          match toLowerCaseOf js t.location with
          | .error e => .error e
          | .ok location => .ok (includes location query)

/-- The function `searchTasks`. -/
def searchTasks (js : Host) (st : State) : Outcome :=
  let query := js.toLowerCase st.taskSearch
  match st.allTasks with
  | none => ⟨st, some .typeError⟩
  | some tasks =>
    match jsFilter (taskMatches js query) tasks with
    | .error e => ⟨st, some e⟩
    | .ok filtered => ⟨displayTasks js (some filtered) st, none⟩

/-- The callback of `searchStudents`. -/
def studentMatches (js : Host) (query : String) (s : Student) : Except JSError Bool :=
  match toLowerCaseOf js s.name with
  | .error e => .error e
  | .ok name =>
    if includes name query then .ok true
    else
      match toLowerCaseOf js s.registerNumber with
      | .error e => .error e
      | .ok reg => .ok (includes reg query)

/-- The function `searchStudents`. -/
def searchStudents (js : Host) (st : State) : Outcome :=
  let query := js.toLowerCase st.studentSearch
  match st.allStudents with
  | none => ⟨st, some .typeError⟩
  | some students =>
    match jsFilter (studentMatches js query) students with
    | .error e => ⟨st, some e⟩
    | .ok filtered => ⟨displayStudents js (some filtered) st, none⟩

/-- The function `filterMedia`. -/
def filterMedia (js : Host) (st : State) : Outcome :=
  let type := st.mediaTypeFilter
  if type = "all" then
    ⟨displayMediaGallery js st.allMedia st, none⟩
  else
    match st.allMedia with
    | none => ⟨st, some .typeError⟩
    | some media =>
      ⟨displayMediaGallery js (some (media.filter fun m => m.kind.strictEq (.str type))) st, none⟩

/-! ## CSV export -/

/-- The constant `headers` of `convertTasksToCSV`. -/
def csvHeaders : List JSVal :=
  [.str "Task ID", .str "Student Name", .str "Register Number", .str "Caption",
   .str "Location", .str "Status", .str "Assigned To", .str "Created At"]

/-- The array `convertTasksToCSV` builds for one task. -/
def csvRow (js : Host) (t : Task) : List JSVal :=
  [t.taskId, t.studentName, t.registerNumber, t.aiCaption, t.location, t.status,
   t.assignedTo, .str (js.dateToLocaleString t.createdAt)]

/-- The function `convertTasksToCSV`. -/
def convertTasksToCSV (js : Host) (tasks : List Task) : String :=
  let headers := csvHeaders
  let rows := tasks.map (csvRow js)
  String.intercalate "\n" ((headers :: rows).map (arrayJoin ","))

/-! ## Auto refresh -/

/-- The host function `setInterval`, returning `handle`: the timer becomes live.
The callback and the period are not tracked. -/
def setInterval (handle : Nat) (st : State) : State :=
  { st with timers := st.timers ++ [handle] }

/-- The host function `clearInterval`: the timer with this handle is cancelled. -/
def clearInterval (handle : Nat) (st : State) : State :=
  { st with timers := st.timers.filter fun h => h != handle }

/-- The function `toggleAutoRefresh`; `handle` is what `setInterval` returns if it
is called. A stored handle is truthy when it is not `0`. -/
def toggleAutoRefresh (handle : Nat) (st : State) : State :=
  let st := { st with autoRefreshEnabled := !st.autoRefreshEnabled }
  if st.autoRefreshEnabled then
    let st := { st with autoRefreshIcon := "▶️" }
    { setInterval handle st with autoRefreshInterval := some handle }
  else
    let st := { st with autoRefreshIcon := "⏸️" }
    match st.autoRefreshInterval with
    | some h => if h != 0 then clearInterval h st else st
    | none => st

/-- The states the script can be in after any number of `toggleAutoRefresh`
calls, when every `setInterval` returns a non-zero handle that is not live. -/
inductive Toggled : State → Prop where
  | start (st : State) (enabled : st.autoRefreshEnabled = false)
      (handle : st.autoRefreshInterval = none) (timers : st.timers = []) : Toggled st
  | toggle (st : State) (handle : Nat) (reached : Toggled st) (nonzero : handle ≠ 0)
      (fresh : handle ∉ st.timers) : Toggled (toggleAutoRefresh handle st)

/-! ## Loading the tasks -/

/-- The method `String.prototype.replace` with string arguments: the first
occurrence of `pat` is replaced. -/
def replaceFirstChars (pat rep : List Char) : List Char → List Char
  | [] => if pat.isEmpty then rep else []
  | c :: cs =>
    if startsWithChars (c :: cs) pat then rep ++ (c :: cs).drop pat.length
    else c :: replaceFirstChars pat rep cs

/-- The constant `SERVER_URL`. -/
def SERVER_URL (st : State) : String := st.origin

/-- The constant `ADMIN_SERVER_URL`. -/
def ADMIN_SERVER_URL (st : State) : String :=
  String.mk (replaceFirstChars ":5000".toList ":5001".toList st.origin.toList)

/-- The function `getAdminURL`. -/
def getAdminURL (st : State) : String :=
  if st.useAdminServer then ADMIN_SERVER_URL st else SERVER_URL st

/-- What the environment answers to a `fetch`: the promise rejects, or it
resolves to a response with its `ok` flag and its body. The body is `none` when
it cannot be read as an object (`response.json()` rejects or yields `null`). -/
inductive Fetched (β : Type) where
  | rejected
  | response (ok : Bool) (body : Option β)
  deriving DecidableEq, Repr

/-- The body of `/admin/all_tasks`: the value under the key `tasks`, `none` when
the key is absent. -/
structure TasksData where
  tasks : Option (List Task)
  deriving DecidableEq, Repr

/-- The markup the `catch` block of `loadAllTasks` writes. -/
def tasksError : String := "<div class=\"error\">Failed to load tasks</div>"

/-- The function `loadAllTasks`, run to completion against the answer `net` of
its `fetch`. Every exception raised in the `try` block is caught. -/
def loadAllTasks (js : Host) (net : Fetched TasksData) (st : State) : State :=
  let adminURL := getAdminURL st
  let st := { st with requests := st.requests ++ [adminURL ++ "/admin/all_tasks"] }
  match net with
  | .rejected => { st with tasksList := tasksError }
  | .response false _ => st
  | .response true none => { st with tasksList := tasksError }
  | .response true (some data) =>
    let st := { st with allTasks := data.tasks }
    displayTasks js st.allTasks st

/-! ## Records of the other endpoints -/

/-- An entry of `/admin/recent_activity`. The field `type` is named `kind`. -/
structure Activity where
  kind : JSVal
  description : JSVal
  timestamp : JSVal
  icon : JSVal
  deriving DecidableEq, Repr

/-- The object under the key `taskCounts` of a staff record. -/
structure TaskCounts where
  total : JSVal
  pending : JSVal
  completed : JSVal
  deriving DecidableEq, Repr

/-- A staff record of `/admin/all_staff`. The key `taskCounts` is `none` when it
does not hold an object. -/
structure Staff where
  name : JSVal
  staffId : JSVal
  taskCounts : Option TaskCounts
  lastLogin : JSVal
  active : JSVal
  deriving DecidableEq, Repr

/-- A task record of `/admin/staff/<id>/tasks`. -/
structure StaffTask where
  imageUrl : JSVal
  studentName : JSVal
  registerNumber : JSVal
  status : JSVal
  studentCaption : JSVal
  aiCaption : JSVal
  location : JSVal
  createdAt : JSVal
  completedAt : JSVal
  completionImageUrl : JSVal
  taskId : JSVal
  deriving DecidableEq, Repr

/-- The body of `/admin/recent_activity`. -/
structure ActivityData where
  activities : Option (List Activity)
  deriving DecidableEq, Repr

/-- The body of `/admin/all_staff`. -/
structure StaffData where
  staff : Option (List Staff)
  deriving DecidableEq, Repr

/-- The body of `/staff/workload`. -/
structure WorkloadData where
  totalStaff : JSVal
  totalTasksInSystem : JSVal
  totalPendingInSystem : JSVal
  totalCompletedInSystem : JSVal
  workload : Option (List Staff)
  deriving DecidableEq, Repr

/-- The body of `/queue/status`. -/
structure QueueData where
  queueLength : JSVal
  deriving DecidableEq, Repr

/-- The body of `/admin/all_students`. -/
structure StudentsData where
  students : Option (List Student)
  total : JSVal
  deriving DecidableEq, Repr

/-- The body of `/admin/media_gallery`. -/
structure MediaData where
  media : Option (List MediaItem)
  deriving DecidableEq, Repr

/-- The body of `/admin/analytics`. -/
structure AnalyticsData where
  totalTasks : JSVal
  completionRate : JSVal
  avgResponseTime : JSVal
  activeUsers : JSVal
  deriving DecidableEq, Repr

/-- The body of `/admin/staff/<id>/tasks`. -/
structure StaffTasksData where
  tasks : Option (List StaffTask)
  deriving DecidableEq, Repr

/-- What the environment answers while one loader runs: the answer of every
endpoint a loader can ask, the text `new Date().toLocaleTimeString()` gives, and,
for a loader started in a refresh tick, the order in which its answers and those
to the statistics requests of the tick arrive (see `interleave`). -/
structure Network where
  workload : Fetched WorkloadData
  queueStatus : Fetched QueueData
  allStudents : Fetched StudentsData
  recentActivity : Fetched ActivityData
  allTasks : Fetched TasksData
  allStaff : Fetched StaffData
  mediaGallery : Fetched MediaData
  analytics : Fetched AnalyticsData
  clock : String
  arrival : List Bool

/-- The expression `o?.f`. -/
def optField {α : Type} (o : Option α) (f : α → JSVal) : JSVal :=
  match o with
  | some x => f x
  | none => .undefined

/-- The method `Array.prototype.map` with a callback that may throw. -/
def jsMap {α β : Type} (f : α → Except JSError β) : List α → Except JSError (List β)
  | [] => .ok []
  | x :: xs =>
    match f x with
    | .error e => .error e
    | .ok y =>
      match jsMap f xs with
      | .error e => .error e
      | .ok ys => .ok (y :: ys)

/-! ## Dashboard -/

/-- The function `updateLastUpdateTime` (both definitions do the same); `clock` is
the text `toLocaleTimeString` returns. -/
def updateLastUpdateTime (clock : String) (st : State) : State :=
  { st with lastUpdate := clock }

/-- The statement `if (el) el.textContent = text`. -/
def setCounter (el : Option String) (text : String) : Option String :=
  el.map fun _ => text

/-- The pattern `if (res.ok) { const data = await res.json(); ... }` inside a `try`
block: the state it leaves and whether an exception was raised (the body could not
be read). -/
def whenOk {β : Type} (ok : Bool) (body : Option β) (use : β → State → State)
    (st : State) : State × Bool :=
  if ok then
    match body with
    | some data => (use data st, false)
    | none => (st, true)
  else (st, false)

/-- The counters `loadStats` writes from the body of `/staff/workload`. -/
def showWorkload (data : WorkloadData) (st : State) : State :=
  { st with stats :=
      { st.stats with
        totalStaff := setCounter st.stats.totalStaff (data.totalStaff.orElse (.num 0)).toStr
        totalTasks :=
          setCounter st.stats.totalTasks (data.totalTasksInSystem.orElse (.num 0)).toStr
        pendingTasks :=
          setCounter st.stats.pendingTasks (data.totalPendingInSystem.orElse (.num 0)).toStr
        completedTasks :=
          setCounter st.stats.completedTasks
            (data.totalCompletedInSystem.orElse (.num 0)).toStr } }

/-- The counter `loadStats` writes from the body of `/queue/status`. -/
def showQueue (data : QueueData) (st : State) : State :=
  { st with stats :=
      { st.stats with
        queuedTasks := setCounter st.stats.queuedTasks (data.queueLength.orElse (.num 0)).toStr } }

/-- The counter `loadStats` writes from the body of `/admin/all_students`. -/
def showStudentTotal (data : StudentsData) (st : State) : State :=
  { st with stats :=
      { st.stats with
        totalStudents := setCounter st.stats.totalStudents (data.total.orElse (.num 0)).toStr } }

/-- The function `loadStats`, run to completion. The three requests are issued
together; when one of them rejects nothing is written. -/
def loadStats (workload : Fetched WorkloadData) (queue : Fetched QueueData)
    (students : Fetched StudentsData) (clock : String) (st : State) : State :=
  let st := { st with requests := st.requests ++
    [SERVER_URL st ++ "/staff/workload", SERVER_URL st ++ "/queue/status",
     SERVER_URL st ++ "/admin/all_students"] }
  match workload, queue, students with
  | .response wok wbody, .response qok qbody, .response sok sbody =>
    let step₁ := whenOk wok wbody showWorkload st
    if step₁.2 then step₁.1
    else
      let step₂ := whenOk qok qbody showQueue step₁.1
      if step₂.2 then step₂.1
      else
        let step₃ := whenOk sok sbody showStudentTotal step₂.1
        if step₃.2 then step₃.1
        else updateLastUpdateTime clock step₃.1
  | _, _, _ => st

/-- The placeholder of the `recentActivityList` container. -/
def noRecentActivity : String := "<div class=\"loading\">No recent activity</div>"

/-- The markup `displayRecentActivity` produces for one entry. -/
def activityCard (js : Host) (activity : Activity) : String :=
  "\n        <div class=\"activity-item\">" ++
  "\n            <div>" ++
  "\n                <strong>" ++ activity.kind.toStr ++ "</strong>: " ++ activity.description.toStr ++
  "\n                <br><small>" ++ js.dateToLocaleString activity.timestamp ++ "</small>" ++
  "\n            </div>" ++
  "\n            <span>" ++ activity.icon.toStr ++ "</span>" ++
  "\n        </div>" ++
  "\n    "

/-- The function `displayRecentActivity`. -/
def displayRecentActivity (js : Host) (activities : Option (List Activity)) (st : State) :
    State :=
  match activities with
  | none => { st with recentActivityList := noRecentActivity }
  | some [] => { st with recentActivityList := noRecentActivity }
  | some (a :: as) =>
    { st with recentActivityList := String.join ((a :: as).map (activityCard js)) }

/-- The function `loadRecentActivity`, run to completion. -/
def loadRecentActivity (js : Host) (net : Fetched ActivityData) (st : State) : State :=
  let st := { st with requests := st.requests ++ [SERVER_URL st ++ "/admin/recent_activity"] }
  match net with
  | .rejected => { st with recentActivityList := noRecentActivity }
  | .response false _ => st
  | .response true none => { st with recentActivityList := noRecentActivity }
  | .response true (some data) => displayRecentActivity js data.activities st

/-- The function `loadCharts` (both definitions only write to the console). -/
def loadCharts (st : State) : State := st

/-- The function `loadDashboard`, run to completion: the three loaders write
different parts of the page and are run one after the other, in the order in which
they issue their requests. -/
def loadDashboard (js : Host) (net : Network) (st : State) : State :=
  loadCharts (loadRecentActivity js net.recentActivity
    (loadStats net.workload net.queueStatus net.allStudents net.clock st))

/-! ## Staff, students, media and analytics -/

/-- The markup `displayStaffList` produces for one staff member. -/
def staffCard (js : Host) (staff : Staff) : String :=
  "\n        <div class=\"staff-card\">" ++
  "\n            <div style=\"display: flex; justify-content: space-between; align-items: center;\">" ++
  "\n                <div style=\"flex: 1;\">" ++
  "\n                    <h3>" ++ staff.name.toStr ++ "</h3>" ++
  "\n                    <p>ID: " ++ staff.staffId.toStr ++ "</p>" ++
  "\n                    <p>📋 Total: " ++
  ((optField staff.taskCounts TaskCounts.total).orElse (.num 0)).toStr ++ " | ⏳ Pending: " ++
  ((optField staff.taskCounts TaskCounts.pending).orElse (.num 0)).toStr ++ " | ✅ Completed: " ++
  ((optField staff.taskCounts TaskCounts.completed).orElse (.num 0)).toStr ++ "</p>" ++
  "\n                    <p style=\"font-size: 0.9em; color: #666;\">" ++
  "\n                        " ++
  (if staff.lastLogin.truthy then "🕐 Last login: " ++ js.dateToLocaleString staff.lastLogin
     else "🕐 Never logged in") ++
  "\n                    </p>" ++
  "\n                </div>" ++
  "\n                <div style=\"display: flex; gap: 10px; align-items: center;\">" ++
  "\n                    <button class=\"btn btn-primary\" onclick=\"viewStaffTasks('" ++
  staff.staffId.toStr ++ "', '" ++ staff.name.toStr ++ "')\">" ++
  "\n                        👁️ View Tasks" ++
  "\n                    </button>" ++
  "\n                    <span class=\"status-badge " ++
  (if staff.active.truthy then "status-active"
     else "status-inactive") ++
  "\">" ++
  "\n                        " ++
  (if staff.active.truthy then "Active"
     else "Inactive") ++
  "\n                    </span>" ++
  "\n                    <button class=\"btn " ++
  (if staff.active.truthy then "btn-danger"
     else "") ++
  "\" " ++
  "\n                            onclick=\"toggleStaffStatus('" ++ staff.staffId.toStr ++ "', " ++
  (JSVal.bool (!staff.active.truthy)).toStr ++ ")\">" ++
  "\n                        " ++
  (if staff.active.truthy then "Deactivate"
     else "Activate") ++
  "\n                    </button>" ++
  "\n                </div>" ++
  "\n            </div>" ++
  "\n        </div>" ++
  "\n    "

/-- The markup the `catch` block of `loadStaffManagement` writes. -/
def staffError : String := "<div class=\"error\">Failed to load staff members</div>"

/-- The function `displayStaffList`. -/
def displayStaffList (js : Host) (staffList : Option (List Staff)) (st : State) : State :=
  match staffList with
  | none => { st with staffList := "<div class=\"loading\">No staff members found</div>" }
  | some [] => { st with staffList := "<div class=\"loading\">No staff members found</div>" }
  | some (x :: xs) => { st with staffList := String.join ((x :: xs).map (staffCard js)) }

/-- The function `loadStaffManagement`, run to completion; `fallback` answers the
request to the old endpoint, which is issued only after a non-success status. -/
def loadStaffManagement (js : Host) (net : Fetched StaffData)
    (fallback : Fetched WorkloadData) (st : State) : State :=
  let st := { st with requests := st.requests ++ [SERVER_URL st ++ "/admin/all_staff"] }
  match net with
  | .rejected => { st with staffList := staffError }
  | .response true none => { st with staffList := staffError }
  | .response true (some data) => displayStaffList js data.staff st
  | .response false _ =>
    let st := { st with requests := st.requests ++ [SERVER_URL st ++ "/staff/workload"] }
    match fallback with
    | .rejected => { st with staffList := staffError }
    | .response false _ => st
    | .response true none => { st with staffList := staffError }
    | .response true (some data) => displayStaffList js data.workload st

/-- The markup the `catch` block of `loadStudents` writes. -/
def studentsError : String := "<div class=\"error\">Failed to load students</div>"

/-- The function `loadStudents`, run to completion. -/
def loadStudents (js : Host) (net : Fetched StudentsData) (st : State) : State :=
  let st := { st with requests := st.requests ++ [SERVER_URL st ++ "/admin/all_students"] }
  match net with
  | .rejected => { st with studentsList := studentsError }
  | .response false _ => st
  | .response true none => { st with studentsList := studentsError }
  | .response true (some data) =>
    let st := { st with allStudents := data.students }
    displayStudents js st.allStudents st

/-- The markup the `catch` block of `loadMediaGallery` writes. -/
def mediaError : String := "<div class=\"error\">Failed to load media</div>"

/-- The function `loadMediaGallery`, run to completion. -/
def loadMediaGallery (js : Host) (net : Fetched MediaData) (st : State) : State :=
  let st := { st with requests := st.requests ++ [SERVER_URL st ++ "/admin/media_gallery"] }
  match net with
  | .rejected => { st with mediaGallery := mediaError }
  | .response false _ => st
  | .response true none => { st with mediaGallery := mediaError }
  | .response true (some data) =>
    let st := { st with allMedia := data.media }
    displayMediaGallery js st.allMedia st

/-- The function `displayAnalytics`. -/
def displayAnalytics (data : AnalyticsData) (st : State) : State :=
  { st with analyticsContent :=
      "\n        <div class=\"stats-grid\">" ++
      "\n            <div class=\"stat-card\">" ++
      "\n                <div class=\"stat-value\">" ++ (data.totalTasks.orElse (.num 0)).toStr ++
      "</div>" ++
      "\n                <div class=\"stat-label\">Total Tasks</div>" ++
      "\n            </div>" ++
      "\n            <div class=\"stat-card\">" ++
      "\n                <div class=\"stat-value\">" ++ (data.completionRate.orElse (.num 0)).toStr ++
      "%</div>" ++
      "\n                <div class=\"stat-label\">Completion Rate</div>" ++
      "\n            </div>" ++
      "\n            <div class=\"stat-card\">" ++
      "\n                <div class=\"stat-value\">" ++ (data.avgResponseTime.orElse (.num 0)).toStr ++
      " min</div>" ++
      "\n                <div class=\"stat-label\">Avg Response Time</div>" ++
      "\n            </div>" ++
      "\n            <div class=\"stat-card\">" ++
      "\n                <div class=\"stat-value\">" ++ (data.activeUsers.orElse (.num 0)).toStr ++
      "</div>" ++
      "\n                <div class=\"stat-label\">Active Users</div>" ++
      "\n            </div>" ++
      "\n        </div>" ++
      "\n        <div class=\"chart-card\">" ++
      "\n            <h3>Task Trends</h3>" ++
      "\n            <p>Chart visualization would go here</p>" ++
      "\n        </div>" ++
      "\n    " }

/-- The function `loadAnalytics`, run to completion: its `catch` block only writes
to the console. -/
def loadAnalytics (net : Fetched AnalyticsData) (st : State) : State :=
  let range := st.analyticsRange
  let st := { st with requests := st.requests ++
    [SERVER_URL st ++ "/admin/analytics?range=" ++ range] }
  match net with
  | .rejected => st
  | .response false _ => st
  | .response true none => st
  | .response true (some data) => displayAnalytics data st

/-! ## The staff-tasks modal -/

/-- The placeholder shown while the tasks of a staff member are being fetched. -/
def staffTasksLoading : String := "<div class=\"loading\">Loading tasks...</div>"

/-- The markup the `catch` blocks of `viewStaffTasks` and `filterStaffTasks` write. -/
def staffTasksError : String := "<div class=\"error\">Failed to load tasks</div>"

/-- The placeholder `displayStaffTasks` writes for an empty or absent list. -/
def staffTasksEmpty : String := "<div class=\"loading\">No tasks found</div>"

/-- The function `createStaffTasksModal`: the modal as it is appended to the
document, not active, with an empty content and the first option selected. -/
def createStaffTasksModal : StaffModal where
  active := false
  content := ""
  title := "Staff Tasks"
  filter := "pending"

/-- The assignment `document.getElementById('staffTasksContent').innerHTML = html`,
made where the modal exists. -/
def setStaffTasksContent (html : String) (st : State) : State :=
  { st with staffTasksModal := st.staffTasksModal.map fun m => { m with content := html } }

/-- The markup `displayStaffTasks` produces for one task. The call
`task.status.toLowerCase()` raises a `TypeError` unless `status` is a string. -/
def staffTaskCard (js : Host) (task : StaffTask) : Except JSError String :=
  match toLowerCaseOf js task.status with
  | .error e => .error e
  | .ok lowered =>
    let statusClass := String.mk (replaceFirstChars [' '] ['-'] lowered.toList)
    .ok (
    "\n        <div class=\"task-card\" style=\"margin-bottom: 20px; padding: 15px; border: 1px solid #ddd; border-radius: 8px; background: white;\">" ++
    "\n            <div style=\"display: flex; gap: 20px;\">" ++
    "\n                <div style=\"flex-shrink: 0;\">" ++
    "\n                    " ++
    (if task.imageUrl.truthy then ("\n                        <img src=\"" ++
      task.imageUrl.toStr ++
      "\" " ++
      "\n                             alt=\"Task image\" " ++
      "\n                             style=\"width: 200px; height: 150px; object-fit: cover; border-radius: 8px; cursor: pointer;\"" ++
      "\n                             onclick=\"openImageModal('" ++
      task.imageUrl.toStr ++
      "')\">" ++
      "\n                    ")
     else "<div style=\"width: 200px; height: 150px; background: #f0f0f0; border-radius: 8px; display: flex; align-items: center; justify-content: center;\">No Image</div>") ++
    "\n                </div>" ++
    "\n                <div style=\"flex: 1;\">" ++
    "\n                    <div style=\"display: flex; justify-content: space-between; align-items: start; margin-bottom: 10px;\">" ++
    "\n                        <div>" ++
    "\n                            <h3 style=\"margin: 0 0 5px 0;\">" ++ task.studentName.toStr ++
    "</h3>" ++
    "\n                            <p style=\"margin: 0; color: #666; font-size: 0.9em;\">Register: " ++
    task.registerNumber.toStr ++ "</p>" ++
    "\n                        </div>" ++
    "\n                        <span class=\"status-badge status-" ++ statusClass ++ "\">" ++
    "\n                            " ++ task.status.toStr ++
    "\n                        </span>" ++
    "\n                    </div>" ++
    "\n                    " ++
    "\n                    <div style=\"margin: 10px 0;\">" ++
    "\n                        <p style=\"margin: 5px 0;\"><strong>Student Caption:</strong> " ++
    (task.studentCaption.orElse (.str "N/A")).toStr ++ "</p>" ++
    "\n                        <p style=\"margin: 5px 0;\"><strong>AI Caption:</strong> " ++
    (task.aiCaption.orElse (.str "N/A")).toStr ++ "</p>" ++
    "\n                        <p style=\"margin: 5px 0;\"><strong>📍 Location:</strong> " ++
    (task.location.orElse (.str "Unknown")).toStr ++ "</p>" ++
    "\n                        <p style=\"margin: 5px 0; color: #666; font-size: 0.9em;\">" ++
    "\n                            <strong>🕐 Created:</strong> " ++
    (if task.createdAt.truthy then js.dateToLocaleString task.createdAt
     else "Unknown") ++
    "\n                        </p>" ++
    "\n                        " ++
    (if task.completedAt.truthy then ("\n                            <p style=\"margin: 5px 0; color: #666; font-size: 0.9em;\">" ++
      "\n                                <strong>✅ Completed:</strong> " ++
      js.dateToLocaleString task.completedAt ++
      "\n                            </p>" ++
      "\n                        ")
     else "") ++
    "\n                    </div>" ++
    "\n                    " ++
    "\n                    " ++
    (if task.completionImageUrl.truthy then ("\n                        <div style=\"margin-top: 10px;\">" ++
      "\n                            <p style=\"margin: 5px 0;\"><strong>Completion Photo:</strong></p>" ++
      "\n                            <img src=\"" ++
      task.completionImageUrl.toStr ++
      "\" " ++
      "\n                                 alt=\"Completion image\" " ++
      "\n                                 style=\"width: 150px; height: 100px; object-fit: cover; border-radius: 4px; cursor: pointer;\"" ++
      "\n                                 onclick=\"openImageModal('" ++
      task.completionImageUrl.toStr ++
      "')\">" ++
      "\n                        </div>" ++
      "\n                    ")
     else "") ++
    "\n                    " ++
    "\n                    <div style=\"margin-top: 15px; display: flex; gap: 10px;\">" ++
    "\n                        <button class=\"btn btn-primary\" onclick=\"viewTaskDetails('" ++
    task.taskId.toStr ++ "')\">" ++
    "\n                            📋 View Details" ++
    "\n                        </button>" ++
    "\n                        " ++
    (if task.status.strictEq (.str "pending") then ("\n                            <button class=\"btn btn-success\" onclick=\"markTaskComplete('" ++
      task.taskId.toStr ++
      "')\">" ++
      "\n                                ✅ Mark Complete" ++
      "\n                            </button>" ++
      "\n                        ")
     else "") ++
    "\n                    </div>" ++
    "\n                </div>" ++
    "\n            </div>" ++
    "\n        </div>" ++
    "\n    ")

/-- The function `displayStaffTasks`. The two module variables are written first;
an exception raised while the cards are built leaves the container as it was. -/
def displayStaffTasks (js : Host) (tasks : Option (List StaffTask))
    (staffId staffName : JSVal) (st : State) : Outcome :=
  let st := { st with currentStaffId := staffId, currentStaffName := staffName }
  match st.staffTasksModal with
  | none => ⟨st, some .typeError⟩
  | some _ =>
    match tasks with
    | none => ⟨setStaffTasksContent staffTasksEmpty st, none⟩
    | some [] => ⟨setStaffTasksContent staffTasksEmpty st, none⟩
    | some (t :: ts) =>
      match jsMap (staffTaskCard js) (t :: ts) with
      | .error e => ⟨st, some e⟩
      | .ok cards => ⟨setStaffTasksContent (String.join cards) st, none⟩

/-- The `try` block of `viewStaffTasks` and `filterStaffTasks` from the answer of
the `fetch` on, with its `catch` block: a rejection, a non-success status, an
unreadable body and an exception raised by `displayStaffTasks` all end with the
error markup in the container. -/
def settleStaffTasks (js : Host) (net : Fetched StaffTasksData)
    (staffId staffName : JSVal) (st : State) : State :=
  match net with
  | .rejected => setStaffTasksContent staffTasksError st
  | .response false _ => setStaffTasksContent staffTasksError st
  | .response true none => setStaffTasksContent staffTasksError st
  | .response true (some data) =>
    let shown := displayStaffTasks js data.tasks staffId staffName st
    match shown.thrown with
    | none => shown.state
    | some _ => setStaffTasksContent staffTasksError shown.state

/-- The part of `viewStaffTasks` that runs before the answer of its `fetch`: the
modal is created if the document has none, made active, the container shows the
loading placeholder, the title names the staff member, the request is issued. -/
def viewStaffTasksOpen (staffId staffName : String) (st : State) : State :=
  let modal := st.staffTasksModal.getD createStaffTasksModal
  let modal := { modal with active := true, content := staffTasksLoading,
                            title := "Tasks for " ++ staffName }
  { st with
    staffTasksModal := some modal
    requests := st.requests ++
      [SERVER_URL st ++ "/admin/staff/" ++ staffId ++ "/tasks?status=pending"] }

/-- The function `viewStaffTasks`, run to completion against the answer `net` of
its `fetch`. -/
def viewStaffTasks (js : Host) (net : Fetched StaffTasksData) (staffId staffName : String)
    (st : State) : State :=
  settleStaffTasks js net (.str staffId) (.str staffName) (viewStaffTasksOpen staffId staffName st)

/-- The user picks the option `value` of the `staffTasksFilter` control. -/
def chooseStaffTasksFilter (value : String) (st : State) : State :=
  { st with staffTasksModal := st.staffTasksModal.map fun m => { m with filter := value } }

/-- The function `filterStaffTasks`, run to completion against the answer `net` of
its `fetch`. Without the modal the control cannot be read and the call ends with a
`TypeError`; without a remembered staff id it returns at once. -/
def filterStaffTasks (js : Host) (net : Fetched StaffTasksData) (st : State) : Outcome :=
  match st.staffTasksModal with
  | none => ⟨st, some .typeError⟩
  | some modal =>
    let filter := modal.filter
    if !st.currentStaffId.truthy then ⟨st, none⟩
    else
      let st := setStaffTasksContent staffTasksLoading st
      let st := { st with requests := st.requests ++
        [SERVER_URL st ++ "/admin/staff/" ++ st.currentStaffId.toStr ++ "/tasks?status=" ++
          filter] }
      ⟨settleStaffTasks js net st.currentStaffId st.currentStaffName st, none⟩

/-! ## Choice of the server -/

/-- The function `checkAdminServer`, run to completion against the answer of the
health probe: only a rejection clears `useAdminServer`. -/
def checkAdminServer (net : Fetched Unit) (st : State) : State :=
  let st := { st with requests := st.requests ++ [ADMIN_SERVER_URL st ++ "/health"] }
  match net with
  | .rejected => { st with useAdminServer := false }
  | .response true _ => { st with useAdminServer := true }
  | .response false _ => st

/-! ## Refresh -/

/-- The function `loadSectionData` called alone: the loader of the section is
started and run to completion against the answers `net`. -/
def loadSectionData (js : Host) (net : Network) (sectionId : String) (st : State) : State :=
  if sectionId = "dashboard" then loadDashboard js net st
  else if sectionId = "tasks" then loadAllTasks js net.allTasks st
  else if sectionId = "staff" then loadStaffManagement js net.allStaff net.workload st
  else if sectionId = "students" then loadStudents js net.allStudents st
  else if sectionId = "media" then loadMediaGallery js net.mediaGallery st
  else if sectionId = "analytics" then loadAnalytics net.analytics st
  else st

/-! ### Loaders in flight

In a refresh tick the loader of the section is called without being awaited, so
it is still waiting for its answer when `loadStats` is called. Each loader is
therefore also given in parts: what it does when it is called, up to its first
`await` (`...Start`), and the steps it takes from then on, one for each answer it
handles (`...Steps`, or `...Settle` for a loader with a single answer). -/

/-- Apply the steps of a run one after the other. -/
def runSteps (steps : List (State → State)) (st : State) : State :=
  steps.foldl (fun st step => step st) st

/-- Two runs in flight at once. `order` tells, answer by answer, which run takes
the next step: the first (`true`) or the second (`false`); a run that has no step
left passes its turn, and when `order` ends what is left of the first run is done
before what is left of the second. -/
def interleave : List Bool → List (State → State) → List (State → State) → State → State
  | [], xs, ys, st => runSteps ys (runSteps xs st)
  | true :: order, x :: xs, ys, st => interleave order xs ys (x st)
  | true :: order, [], ys, st => interleave order [] ys st
  | false :: order, xs, y :: ys, st => interleave order xs ys (y st)
  | false :: order, xs, [], st => interleave order xs [] st

/-- The pattern `if (res.ok) { const data = await res.json(); ... }` inside a `try`
block, as the step a run in flight takes: `none` when an exception is raised (the
body could not be read). -/
def whenOkStep {β : Type} (ok : Bool) (body : Option β) (use : β → State → State) :
    Option (State → State) :=
  if ok then
    match body with
    | some data => some (use data)
    | none => none
  else some id

/-- The steps of a `try` block that are taken: those before the first one that
raises an exception. -/
def untilThrown : List (Option (State → State)) → List (State → State)
  | [] => []
  | none :: _ => []
  | some step :: rest => step :: untilThrown rest

/-- The function `loadStats` up to its `await`: the three requests are issued. -/
def loadStatsStart (st : State) : State :=
  { st with requests := st.requests ++
    [SERVER_URL st ++ "/staff/workload", SERVER_URL st ++ "/queue/status",
     SERVER_URL st ++ "/admin/all_students"] }

/-- The function `loadStats` from the answers on: when one of the three requests
rejects nothing is done; otherwise the three bodies are handled in turn and the
time is written, up to the first exception. -/
def loadStatsSteps (workload : Fetched WorkloadData) (queue : Fetched QueueData)
    (students : Fetched StudentsData) (clock : String) : List (State → State) :=
  match workload, queue, students with
  | .response wok wbody, .response qok qbody, .response sok sbody =>
    untilThrown
      [whenOkStep wok wbody showWorkload, whenOkStep qok qbody showQueue,
       whenOkStep sok sbody showStudentTotal, some (updateLastUpdateTime clock)]
  | _, _, _ => []

/-- The function `loadRecentActivity` up to its `await`. -/
def loadRecentActivityStart (st : State) : State :=
  { st with requests := st.requests ++ [SERVER_URL st ++ "/admin/recent_activity"] }

/-- The function `loadRecentActivity` from the answer on. -/
def loadRecentActivitySettle (js : Host) (net : Fetched ActivityData) (st : State) : State :=
  match net with
  | .rejected => { st with recentActivityList := noRecentActivity }
  | .response false _ => st
  | .response true none => { st with recentActivityList := noRecentActivity }
  | .response true (some data) => displayRecentActivity js data.activities st

/-- The function `loadDashboard` up to its `await`: `loadStats`, `loadRecentActivity`
and `loadCharts` have been called in this order. -/
def loadDashboardStart (st : State) : State :=
  loadCharts (loadRecentActivityStart (loadStatsStart st))

/-- The function `loadDashboard` from the answers on. Its `loadStats` and its
`loadRecentActivity` write different parts of the page; as in `loadDashboard`, the
steps of the first are put before the step of the second. -/
def loadDashboardSteps (js : Host) (net : Network) : List (State → State) :=
  loadStatsSteps net.workload net.queueStatus net.allStudents net.clock ++
    [loadRecentActivitySettle js net.recentActivity]

/-- The function `loadAllTasks` up to its `await`. -/
def loadAllTasksStart (st : State) : State :=
  { st with requests := st.requests ++ [getAdminURL st ++ "/admin/all_tasks"] }

/-- The function `loadAllTasks` from the answer on. -/
def loadAllTasksSettle (js : Host) (net : Fetched TasksData) (st : State) : State :=
  match net with
  | .rejected => { st with tasksList := tasksError }
  | .response false _ => st
  | .response true none => { st with tasksList := tasksError }
  | .response true (some data) =>
    let st := { st with allTasks := data.tasks }
    displayTasks js st.allTasks st

/-- The function `loadStaffManagement` up to its first `await`. -/
def loadStaffManagementStart (st : State) : State :=
  { st with requests := st.requests ++ [SERVER_URL st ++ "/admin/all_staff"] }

/-- The function `loadStaffManagement` from its second answer on, the one of the
old endpoint. -/
def loadStaffFallbackSettle (js : Host) (fallback : Fetched WorkloadData) (st : State) :
    State :=
  match fallback with
  | .rejected => { st with staffList := staffError }
  | .response false _ => st
  | .response true none => { st with staffList := staffError }
  | .response true (some data) => displayStaffList js data.workload st

/-- The function `loadStaffManagement` from the first answer on. After a
non-success status it takes two steps: the request to the old endpoint is issued
when the first answer is handled, and its answer is handled later. -/
def loadStaffManagementSteps (js : Host) (net : Fetched StaffData)
    (fallback : Fetched WorkloadData) : List (State → State) :=
  match net with
  | .rejected => [fun st => { st with staffList := staffError }]
  | .response true none => [fun st => { st with staffList := staffError }]
  | .response true (some data) => [displayStaffList js data.staff]
  | .response false _ =>
    [fun st => { st with requests := st.requests ++ [SERVER_URL st ++ "/staff/workload"] },
     loadStaffFallbackSettle js fallback]

/-- The function `loadStudents` up to its `await`. -/
def loadStudentsStart (st : State) : State :=
  { st with requests := st.requests ++ [SERVER_URL st ++ "/admin/all_students"] }

/-- The function `loadStudents` from the answer on. -/
def loadStudentsSettle (js : Host) (net : Fetched StudentsData) (st : State) : State :=
  match net with
  | .rejected => { st with studentsList := studentsError }
  | .response false _ => st
  | .response true none => { st with studentsList := studentsError }
  | .response true (some data) =>
    let st := { st with allStudents := data.students }
    displayStudents js st.allStudents st

/-- The function `loadMediaGallery` up to its `await`. -/
def loadMediaGalleryStart (st : State) : State :=
  { st with requests := st.requests ++ [SERVER_URL st ++ "/admin/media_gallery"] }

/-- The function `loadMediaGallery` from the answer on. -/
def loadMediaGallerySettle (js : Host) (net : Fetched MediaData) (st : State) : State :=
  match net with
  | .rejected => { st with mediaGallery := mediaError }
  | .response false _ => st
  | .response true none => { st with mediaGallery := mediaError }
  | .response true (some data) =>
    let st := { st with allMedia := data.media }
    displayMediaGallery js st.allMedia st

/-- The function `loadAnalytics` up to its `await`: the range is read and the
request issued. -/
def loadAnalyticsStart (st : State) : State :=
  { st with requests := st.requests ++
    [SERVER_URL st ++ "/admin/analytics?range=" ++ st.analyticsRange] }

/-- The function `loadAnalytics` from the answer on. -/
def loadAnalyticsSettle (net : Fetched AnalyticsData) (st : State) : State :=
  match net with
  | .rejected => st
  | .response false _ => st
  | .response true none => st
  | .response true (some data) => displayAnalytics data st

/-- The call `loadSectionData(sectionId)` as it returns: the loader of the section
has been called and waits for its answer. -/
def loadSectionDataStart (sectionId : String) (st : State) : State :=
  if sectionId = "dashboard" then loadDashboardStart st
  else if sectionId = "tasks" then loadAllTasksStart st
  else if sectionId = "staff" then loadStaffManagementStart st
  else if sectionId = "students" then loadStudentsStart st
  else if sectionId = "media" then loadMediaGalleryStart st
  else if sectionId = "analytics" then loadAnalyticsStart st
  else st

/-- The steps the loader called by `loadSectionData(sectionId)` takes from its
answers on. -/
def loadSectionDataSteps (js : Host) (net : Network) (sectionId : String) :
    List (State → State) :=
  if sectionId = "dashboard" then loadDashboardSteps js net
  else if sectionId = "tasks" then [loadAllTasksSettle js net.allTasks]
  else if sectionId = "staff" then loadStaffManagementSteps js net.allStaff net.workload
  else if sectionId = "students" then [loadStudentsSettle js net.allStudents]
  else if sectionId = "media" then [loadMediaGallerySettle js net.mediaGallery]
  else if sectionId = "analytics" then [loadAnalyticsSettle net.analytics]
  else []

/-! ### The refresh tick -/

/-- The function `refreshAll` in effect, the second definition. The function
`loadSectionData` returns nothing, so `await loadSectionData(...)` waits for no
answer: the loader of the active section has issued its first request, then
`loadStats` issues its three requests, and only then are answers handled, in the
order `sectionNet.arrival` between the loader of the section (answered by
`sectionNet`) and the rest of the tick (`loadStats`, answered by `statsNet`, and
after it the writing of the time text `clock`). -/
def refreshAll (js : Host) (sectionNet statsNet : Network) (clock : String) (st : State) :
    Outcome :=
  let tick := loadStatsSteps statsNet.workload statsNet.queueStatus statsNet.allStudents
    statsNet.clock ++ [updateLastUpdateTime clock]
  match st.activeSection with
  | none => ⟨runSteps tick (loadStatsStart st), none⟩
  | some sectionId =>
    ⟨interleave sectionNet.arrival (loadSectionDataSteps js sectionNet sectionId) tick
      (loadStatsStart (loadSectionDataStart sectionId st)), none⟩

/-- The first definition of `refreshAll`, which the second one replaces: it reads
the `id` of the active section without testing that there is one, and does the
same as the second definition when there is one. -/
def refreshAllShadowed (js : Host) (sectionNet statsNet : Network) (clock : String)
    (st : State) : Outcome :=
  match st.activeSection with
  | none => ⟨st, some .typeError⟩
  | some _ => refreshAll js sectionNet statsNet clock st

/-! ## Export of the tasks -/

/-- The function `downloadCSV`: the browser is handed a file with this name and
content. -/
def downloadCSV (csv filename : String) (st : State) : State :=
  { st with downloads := st.downloads ++ [(filename, csv)] }

/-- The function `exportTasks`. With the cache holding `undefined` the call
`tasks.map` raises a `TypeError`. -/
def exportTasks (js : Host) (st : State) : Outcome :=
  match st.allTasks with
  | none => ⟨st, some .typeError⟩
  | some tasks => ⟨downloadCSV (convertTasksToCSV js tasks) "tasks_export.csv" st, none⟩

/-! ## Sample data -/

/-- A task record with every field present. -/
def sampleTask : Task where
  taskId := .str "T1"
  studentName := .str "Alice Smith"
  registerNumber := .str "R1"
  aiCaption := .str "Fallen branch"
  location := .str "North gate"
  status := .str "pending"
  assignedTo := .str "S1"
  createdAt := .str "2024-01-02T03:04:05Z"

/-- A completed task. -/
def doneTask : Task :=
  { sampleTask with taskId := .str "T2", aiCaption := .str "Broken bench", status := .str "completed" }

/-- A task record without the key `aiCaption`. -/
def uncaptionedTask : Task :=
  { sampleTask with taskId := .str "T3", aiCaption := .undefined }

/-- A page served from a local development server, before any request. -/
def samplePage : State := State.initial "http://localhost:5000"

/-- A task whose caption runs over two lines. -/
def multilineTask : Task :=
  { sampleTask with aiCaption := .str "Fallen branch\nnear the gate" }

/-- A task whose location holds a comma. -/
def commaTask : Task :=
  { sampleTask with location := .str "North gate, block B" }

/-- A page whose `tasksList` container shows a loading text. -/
def loadingPage : State :=
  { samplePage with tasksList := "<div class=\"loading\">Loading tasks...</div>" }

/-- A pending task of a staff member, without images. -/
def sampleStaffTask : StaffTask where
  imageUrl := .undefined
  studentName := .str "Alice Smith"
  registerNumber := .str "R1"
  status := .str "pending"
  studentCaption := .str "Tree fell"
  aiCaption := .str "Fallen branch"
  location := .str "North gate"
  createdAt := .str "2024-01-02T03:04:05Z"
  completedAt := .undefined
  completionImageUrl := .undefined
  taskId := .str "T1"

/-- A task of a staff member without the key `status`. -/
def statuslessStaffTask : StaffTask :=
  { sampleStaffTask with status := .undefined }

/-- A successful answer of `/admin/staff/<id>/tasks` carrying one task. -/
def staffTasksOk : Fetched StaffTasksData :=
  .response true (some { tasks := some [sampleStaffTask] })

/-- The page after the tasks of staff member `S1` have been viewed with success
and the tasks of staff member `S2` have been asked for, the `fetch` rejecting. -/
def afterFailedView : State :=
  viewStaffTasks asciiHost .rejected "S2" "Bob"
    (viewStaffTasks asciiHost staffTasksOk "S1" "Ann" samplePage)

/-- The page after a first request for the tasks of a staff member whose `fetch`
rejected. -/
def afterFirstFailedView : State :=
  viewStaffTasks asciiHost .rejected "S2" "Bob" samplePage

/-! ## Notions of the specification -/

/-- The header row in the words of the specification: the eight declared column
names joined by commas. -/
def csvHeaderLine : String :=
  "Task ID,Student Name,Register Number,Caption,Location,Status,Assigned To,Created At"

/-- The text `convertTasksToCSV` produces for one task: `row.join(',')`. -/
def csvLine (js : Host) (t : Task) : String := arrayJoin "," (csvRow js t)

/-- The lines of a text: the pieces between its newline characters. -/
def textLines (text : String) : List String := (text.toList.splitOn '\n').map String.mk

/-- The cells of a row: the pieces between its commas. -/
def csvCells (row : String) : List String := (row.toList.splitOn ',').map String.mk

/-- The matching rule in the words of the specification: does the lower-cased
text of the field contain the query? A field without text contains nothing. -/
def specFieldContains (js : Host) (query : String) : JSVal → Bool
  | .str s => includes (js.toLowerCase s) query
  | _ => false

/-- The matching rule in the words of the specification: a record matches when any
of `aiCaption`, `studentName`, `location` contains the query. -/
def specTaskMatches (js : Host) (query : String) (t : Task) : Bool :=
  specFieldContains js query t.aiCaption || specFieldContains js query t.studentName ||
    specFieldContains js query t.location

/-- A record whose three searched fields all hold text. -/
def Task.hasSearchText (t : Task) : Prop :=
  (∃ a, t.aiCaption = .str a) ∧ (∃ n, t.studentName = .str n) ∧ (∃ l, t.location = .str l)

/-- Two field values that differ at most in letter case: two strings with the same
lower-cased text, or the same value. -/
def sameUpToCase (js : Host) : JSVal → JSVal → Prop
  | .str a, .str b => js.toLowerCase a = js.toLowerCase b
  | a, b => a = b

/-- Two student records whose `name` and `registerNumber` differ at most in letter
case. -/
def Student.sameUpToCase (js : Host) (x y : Student) : Prop :=
  AdminScript.sameUpToCase js x.name y.name ∧
    AdminScript.sameUpToCase js x.registerNumber y.registerNumber

/-- The positions of the records a `filter` call with callback `p` keeps: the same
`filter` run over the records paired with their index. -/
def selectedPositions {α : Type} (p : α → Except JSError Bool) (xs : List α) :
    Except JSError (List Nat) :=
  match jsFilter (fun ix : Nat × α => p ix.2) xs.enum with
  | .error e => .error e
  | .ok kept => .ok (kept.map Prod.fst)

/-- A student named `Alice Smith`. -/
def aliceSmith : Student where
  name := .str "Alice Smith"
  registerNumber := .str "21BCE1001"
  totalReports := .num 3
  lastActive := .undefined

/-- The same student as `aliceSmith`, written in capitals. -/
def aliceCapitals : Student where
  name := .str "ALICE SMITH"
  registerNumber := .str "21bce1001"
  totalReports := .num 3
  lastActive := .undefined

/-- What the `staffTasksContent` container shows once `filterStaffTasks` has run to
completion against an answer: the error markup for a rejection, a non-success
status, an unreadable body and a task list the renderer cannot build; the
placeholder for an empty or absent list; the cards of the tasks otherwise. -/
def staffTasksView (js : Host) : Fetched StaffTasksData → String
  | .rejected => staffTasksError
  | .response false _ => staffTasksError
  | .response true none => staffTasksError
  | .response true (some data) =>
    match data.tasks with
    | none => staffTasksEmpty
    | some [] => staffTasksEmpty
    | some (t :: ts) =>
      match jsMap (staffTaskCard js) (t :: ts) with
      | .error _ => staffTasksError
      | .ok cards => String.join cards

/-- A page with the staff-tasks modal open on the tasks of staff member `S1`. -/
def staffTasksPage : State :=
  viewStaffTasks asciiHost staffTasksOk "S1" "Ann" samplePage

/-- Did the `fetch` fail: a rejection or a response with a non-success status? -/
def Fetched.failed {β : Type} : Fetched β → Bool
  | .rejected => true
  | .response ok _ => !ok

/-- A task record without the key `location`. -/
def unlocatedTask : Task :=
  { sampleTask with taskId := .str "T4", location := .undefined }

/-- A task record without the key `studentName`. -/
def unnamedTask : Task :=
  { sampleTask with taskId := .str "T5", studentName := .undefined }

/-- Did every `fetch` answered by this network fail? -/
def Network.allFailed (net : Network) : Bool :=
  net.workload.failed && net.queueStatus.failed && net.allStudents.failed &&
    net.recentActivity.failed && net.allTasks.failed && net.allStaff.failed &&
    net.mediaGallery.failed && net.analytics.failed

/-- The content of the container a section loader renders into, `none` for a
section without loader. For the dashboard it is the recent-activity list. -/
def sectionContainer (sectionId : String) (st : State) : Option String :=
  if sectionId = "dashboard" then some st.recentActivityList
  else if sectionId = "tasks" then some st.tasksList
  else if sectionId = "staff" then some st.staffList
  else if sectionId = "students" then some st.studentsList
  else if sectionId = "media" then some st.mediaGallery
  else if sectionId = "analytics" then some st.analyticsContent
  else none

/-- The three requests of `loadStats`, issued from the state `st`. -/
def statsRequests (st : State) : List String :=
  [SERVER_URL st ++ "/staff/workload", SERVER_URL st ++ "/queue/status",
   SERVER_URL st ++ "/admin/all_students"]

/-- The requests the loader of a section issues when it is called. -/
def sectionStartRequests (sectionId : String) (st : State) : List String :=
  if sectionId = "dashboard" then
    statsRequests st ++ [SERVER_URL st ++ "/admin/recent_activity"]
  else if sectionId = "tasks" then [getAdminURL st ++ "/admin/all_tasks"]
  else if sectionId = "staff" then [SERVER_URL st ++ "/admin/all_staff"]
  else if sectionId = "students" then [SERVER_URL st ++ "/admin/all_students"]
  else if sectionId = "media" then [SERVER_URL st ++ "/admin/media_gallery"]
  else if sectionId = "analytics" then
    [SERVER_URL st ++ "/admin/analytics?range=" ++ st.analyticsRange]
  else []

/-- The requests the loader of a section issues after its first answer: the one
to the old endpoint, when the staff endpoint answers with a non-success status. -/
def sectionLateRequests (net : Network) (sectionId : String) (st : State) : List String :=
  if sectionId = "staff" then
    match net.allStaff with
    | .response false _ => [SERVER_URL st ++ "/staff/workload"]
    | _ => []
  else []

/-- The parts of the page and the caches the section loaders write, apart from
the counters and the time text, which `loadStats` writes. -/
structure SectionView where
  tasksList : String
  allTasks : Option (List Task)
  studentsList : String
  allStudents : Option (List Student)
  mediaGallery : String
  allMedia : Option (List MediaItem)
  staffList : String
  analyticsContent : String
  recentActivityList : String
  deriving DecidableEq, Repr

/-- The section view of a state. -/
def State.sectionView (st : State) : SectionView where
  tasksList := st.tasksList
  allTasks := st.allTasks
  studentsList := st.studentsList
  allStudents := st.allStudents
  mediaGallery := st.mediaGallery
  allMedia := st.allMedia
  staffList := st.staffList
  analyticsContent := st.analyticsContent
  recentActivityList := st.recentActivityList

/-- A network on which every `fetch` rejects. -/
def rejectingNetwork : Network where
  workload := .rejected
  queueStatus := .rejected
  allStudents := .rejected
  recentActivity := .rejected
  allTasks := .rejected
  allStaff := .rejected
  mediaGallery := .rejected
  analytics := .rejected
  clock := "12:00:00"
  arrival := []

/-- The tasks section, active and showing one task. -/
def tasksSectionPage : State :=
  loadAllTasks asciiHost (.response true (some { tasks := some [sampleTask] }))
    { samplePage with activeSection := some "tasks" }

/-- A page on which the staff section is the active one. -/
def staffSectionPage : State := { samplePage with activeSection := some "staff" }

/-- A page without active section. -/
def idlePage : State := { samplePage with activeSection := none }

/-- A network whose staff endpoint answers with a non-success status and whose old
endpoint answers with an empty list; the answer of the staff endpoint arrives
first, then those of the statistics requests, then the one of the old endpoint. -/
def staffRefusedNetwork : Network :=
  { rejectingNetwork with
    allStaff := .response false none
    workload := .response true (some
      { totalStaff := .num 0, totalTasksInSystem := .num 0, totalPendingInSystem := .num 0,
        totalCompletedInSystem := .num 0, workload := some [] })
    arrival := [true, false, false, false, false, false, true] }

/-- A network that answers the statistics requests with counts. -/
def countingNetwork : Network :=
  { rejectingNetwork with
    workload := .response true (some
      { totalStaff := .num 3, totalTasksInSystem := .num 7, totalPendingInSystem := .num 2,
        totalCompletedInSystem := .num 5, workload := none })
    queueStatus := .response true (some { queueLength := .num 1 })
    allStudents := .response true (some { students := none, total := .num 4 }) }

/-- Was the `fetch` answered with a non-success status? -/
def Fetched.refused {β : Type} : Fetched β → Bool
  | .rejected => false
  | .response ok _ => !ok

/-- Was every `fetch` answered by this network answered with a non-success
status? -/
def Network.allRefused (net : Network) : Bool :=
  net.workload.refused && net.queueStatus.refused && net.allStudents.refused &&
    net.recentActivity.refused && net.allTasks.refused && net.allStaff.refused &&
    net.mediaGallery.refused && net.analytics.refused

/-- The timer invariant of the auto-refresh toggle: when auto refresh is enabled
the stored handle is non-zero and is the only live timer, and when it is disabled
no timer is live. -/
def TimerInvariant (st : State) : Prop :=
  if st.autoRefreshEnabled then
    ∃ handle, handle ≠ 0 ∧ st.autoRefreshInterval = some handle ∧ st.timers = [handle]
  else st.timers = []

/-! ## Facts about the built-ins -/

theorem strictEq_eq_decide (a b : JSVal) : a.strictEq b = decide (a = b) := by
  rw [Bool.eq_iff_iff]
  cases a <;> cases b <;> simp [JSVal.strictEq]

theorem startsWithChars_iff (s q : List Char) : startsWithChars s q = true ↔ q <+: s := by
  induction s generalizing q with
  | nil => cases q <;> simp [startsWithChars]
  | cons c cs ih =>
    cases q with
    | nil => simp [startsWithChars]
    | cons d ds =>
      simp only [startsWithChars, Bool.and_eq_true, beq_iff_eq, ih, List.cons_prefix_cons]
      constructor
      · rintro ⟨h, h2⟩; exact ⟨h.symm, h2⟩
      · rintro ⟨h, h2⟩; exact ⟨h.symm, h2⟩

theorem includesChars_iff (s q : List Char) : includesChars s q = true ↔ q <:+: s := by
  induction s with
  | nil => cases q <;> simp [includesChars]
  | cons c cs ih =>
    simp only [includesChars, Bool.or_eq_true, startsWithChars_iff, ih, List.infix_cons_iff]

/-- The test `s.includes(q)` holds exactly when `q` is a contiguous block of `s`. -/
theorem includes_iff (s q : String) : includes s q = true ↔ q.toList <:+: s.toList :=
  includesChars_iff _ _

theorem includes_empty (s : String) : includes s "" = true := by
  rw [includes_iff]; exact List.nil_infix

theorem jsFilter_of_ok {α : Type} (p : α → Except JSError Bool) (f : α → Bool) (xs : List α)
    (h : ∀ x ∈ xs, p x = .ok (f x)) : jsFilter p xs = .ok (xs.filter f) := by
  induction xs with
  | nil => rfl
  | cons x xs ih =>
    have hx := h x (List.mem_cons_self _ _)
    have hxs := ih fun y hy => h y (List.mem_cons_of_mem _ hy)
    simp only [jsFilter, hx, hxs, List.filter_cons]

/-! ## Filtering the tasks by status -/

/-- C1: for every cached snapshot and every selected status, `filterTasks` ends
without an exception and hands the renderer the whole snapshot when the status is
`all`, and otherwise the records of the snapshot whose `status` equals the
selected string, in snapshot order and nothing else. -/
theorem filterTasks_selects (js : Host) (st : State) (snap : List Task) (s : String) :
    filterTasks js { st with allTasks := some snap, taskStatusFilter := s } =
      { state := displayTasks js
          (some (if s = "all" then snap else snap.filter fun t => decide (t.status = JSVal.str s)))
          { st with allTasks := some snap, taskStatusFilter := s },
        thrown := none } := by
  by_cases h : s = "all"
  · simp [filterTasks, h]
  · simp [filterTasks, h, strictEq_eq_decide]

/-! ## Searching the tasks -/

/-- On a record whose searched fields hold text the callback of `searchTasks`
returns what the specification's rule says. -/
theorem taskMatches_of_text (js : Host) (query : String) (t : Task) (h : t.hasSearchText) :
    taskMatches js query t = .ok (specTaskMatches js query t) := by
  obtain ⟨⟨a, ha⟩, ⟨n, hn⟩, ⟨l, hl⟩⟩ := h
  simp only [taskMatches, specTaskMatches, specFieldContains, toLowerCaseOf, ha, hn, hl]
  cases includes (js.toLowerCase a) query <;> cases includes (js.toLowerCase n) query <;> simp

/-- Whenever the callback of `searchTasks` returns, it returns what the
specification's rule says. -/
theorem taskMatches_ok (js : Host) (query : String) (t : Task) (b : Bool)
    (h : taskMatches js query t = .ok b) : b = specTaskMatches js query t := by
  obtain ⟨tid, name, reg, cap, loc, status, assignee, created⟩ := t
  simp only [taskMatches, specTaskMatches, specFieldContains] at h ⊢
  cases cap <;> simp only [toLowerCaseOf] at h <;> try cases h
  split at h
  · cases h; simp [*]
  · cases name <;> simp only [toLowerCaseOf] at h <;> try cases h
    split at h
    · cases h; simp [*]
    · cases loc <;> simp only [toLowerCaseOf] at h <;> try cases h
      simp [*]

/-- On a snapshot whose records all hold text in the searched fields, `searchTasks`
ends without an exception and hands the renderer the records that match in the
specification's sense, in snapshot order. -/
theorem searchTasks_of_text (js : Host) (st : State) (snap : List Task) (q : String)
    (h : ∀ t ∈ snap, t.hasSearchText) :
    searchTasks js { st with allTasks := some snap, taskSearch := q } =
      { state := displayTasks js (some (snap.filter (specTaskMatches js (js.toLowerCase q))))
          { st with allTasks := some snap, taskSearch := q },
        thrown := none } := by
  simp only [searchTasks]
  rw [jsFilter_of_ok _ (specTaskMatches js (js.toLowerCase q)) snap
    fun t ht => taskMatches_of_text js _ t (h t ht)]

/-- With the empty query, on a snapshot whose records all hold text in `aiCaption`,
`searchTasks` hands the renderer the whole snapshot. -/
theorem searchTasks_empty_query_of_caption (js : Host) (hjs : js.toLowerCase "" = "")
    (st : State) (snap : List Task) (h : ∀ t ∈ snap, ∃ a, t.aiCaption = .str a) :
    searchTasks js { st with allTasks := some snap, taskSearch := "" } =
      { state := displayTasks js (some snap) { st with allTasks := some snap, taskSearch := "" },
        thrown := none } := by
  have hall : jsFilter (taskMatches js "") snap = .ok (snap.filter fun _ => true) := by
    apply jsFilter_of_ok
    intro t ht
    obtain ⟨a, ha⟩ := h t ht
    simp [taskMatches, toLowerCaseOf, ha, includes_empty]
  simp only [searchTasks, hjs, hall, List.filter_true]

/-- C2, evaluated on a snapshot holding a record without `aiCaption`: with the
empty query `searchTasks` ends with a `TypeError`, the renderer is not called and
the `tasksList` container keeps its content, instead of showing the two records. -/
theorem searchTasks_empty_query_absent_caption :
    searchTasks asciiHost
        { samplePage with allTasks := some [sampleTask, uncaptionedTask], taskSearch := "" } =
      { state := { samplePage with allTasks := some [sampleTask, uncaptionedTask], taskSearch := "" },
        thrown := some .typeError } := by
  decide

/-- C4, evaluated on a snapshot holding a record without `aiCaption`: both records
have a `location` that contains the query `gate`, yet `searchTasks` ends with a
`TypeError` and hands nothing to the renderer. -/
theorem searchTasks_absent_caption_throws :
    specTaskMatches asciiHost (asciiHost.toLowerCase "gate") sampleTask = true ∧
    specTaskMatches asciiHost (asciiHost.toLowerCase "gate") uncaptionedTask = true ∧
    searchTasks asciiHost
        { samplePage with allTasks := some [sampleTask, uncaptionedTask], taskSearch := "gate" } =
      { state := { samplePage with allTasks := some [sampleTask, uncaptionedTask],
                                   taskSearch := "gate" },
        thrown := some .typeError } := by
  decide

/-! ## Searching the students -/

theorem toLowerCaseOf_congr (js : Host) (a b : JSVal) (h : sameUpToCase js a b) :
    toLowerCaseOf js a = toLowerCaseOf js b := by
  cases a <;> cases b <;> simp_all [sameUpToCase, toLowerCaseOf]

theorem studentMatches_congr (js : Host) (query : String) (x y : Student)
    (h : Student.sameUpToCase js x y) : studentMatches js query x = studentMatches js query y := by
  simp only [studentMatches, toLowerCaseOf_congr js _ _ h.1, toLowerCaseOf_congr js _ _ h.2]

theorem jsFilter_map_snd {α : Type} (p : α → Except JSError Bool) (l : List (Nat × α)) :
    jsFilter p (l.map Prod.snd) =
      match jsFilter (fun ix : Nat × α => p ix.2) l with
      | .error e => .error e
      | .ok kept => .ok (kept.map Prod.snd) := by
  induction l with
  | nil => rfl
  | cons x l ih =>
    simp only [List.map_cons, jsFilter, ih]
    cases p x.2 with
    | error e => rfl
    | ok b =>
      cases jsFilter (fun ix : Nat × α => p ix.2) l with
      | error e => rfl
      | ok kept => cases b <;> rfl

theorem jsFilter_sublist {α : Type} (p : α → Except JSError Bool) (l kept : List α)
    (h : jsFilter p l = .ok kept) : kept.Sublist l := by
  induction l generalizing kept with
  | nil => simp only [jsFilter] at h; cases h; exact List.Sublist.slnil
  | cons x l ih =>
    simp only [jsFilter] at h
    cases hp : p x with
    | error e => rw [hp] at h; cases h
    | ok b =>
      rw [hp] at h
      cases hl : jsFilter p l with
      | error e => rw [hl] at h; cases h
      | ok rest =>
        rw [hl] at h
        cases h
        cases b
        · exact (ih rest hl).cons _
        · exact (ih rest hl).cons₂ _

theorem positions_congr {α : Type} (p q : α → Except JSError Bool) (A B : List α)
    (h : List.Forall₂ (fun a b => p a = q b) A B) (n : Nat) :
    (match jsFilter (fun ix : Nat × α => p ix.2) (A.enumFrom n) with
      | .error e => Except.error e
      | .ok kept => Except.ok (kept.map Prod.fst)) =
    (match jsFilter (fun ix : Nat × α => q ix.2) (B.enumFrom n) with
      | .error e => Except.error e
      | .ok kept => Except.ok (kept.map Prod.fst)) := by
  induction h generalizing n with
  | nil => rfl
  | @cons a b A B hab _ ih =>
    have ih := ih (n + 1)
    simp only [List.enumFrom_cons, jsFilter, hab]
    cases q b with
    | error e => rfl
    | ok c =>
      revert ih
      cases jsFilter (fun ix : Nat × α => p ix.2) (A.enumFrom (n + 1)) <;>
        cases jsFilter (fun ix : Nat × α => q ix.2) (B.enumFrom (n + 1)) <;>
        cases c <;> simp

/-- The function `searchStudents` hands the renderer the records at the selected
positions, and ends with an exception exactly when the selection does. -/
theorem searchStudents_shows_positions (js : Host) (st : State) (snap : List Student)
    (hst : st.allStudents = some snap) :
    searchStudents js st =
      match selectedPositions (studentMatches js (js.toLowerCase st.studentSearch)) snap with
      | .error e => { state := st, thrown := some e }
      | .ok positions =>
        { state := displayStudents js (some (positions.filterMap fun i => snap[i]?)) st,
          thrown := none } := by
  have hmap := jsFilter_map_snd (studentMatches js (js.toLowerCase st.studentSearch)) snap.enum
  rw [List.enum_map_snd] at hmap
  simp only [searchStudents, hst, selectedPositions, hmap]
  cases hk : jsFilter (fun ix : Nat × Student =>
      studentMatches js (js.toLowerCase st.studentSearch) ix.2) snap.enum with
  | error e => rfl
  | ok kept =>
    have hsub := jsFilter_sublist _ _ _ hk
    have : (kept.map Prod.fst).filterMap (fun i => snap[i]?) = kept.map Prod.snd := by
      rw [List.filterMap_map, ← List.filterMap_eq_map]
      apply List.filterMap_congr
      intro ix hix
      have hmem := hsub.subset hix
      obtain ⟨i, x⟩ := ix
      simpa using (List.mk_mem_enum_iff_getElem? (l := snap)).1 hmem
    simp only [this]

/-- C3: `searchStudents` is case-insensitive. Two queries with the same lower-cased
text, run on two snapshots whose `name` and `registerNumber` differ at most in
letter case, select the same positions (and end with the same exception if they
end with one); the query `ALICE` selects a student named `Alice Smith`. -/
theorem searchStudents_case_insensitive (js : Host) (q₁ q₂ : String) (A B : List Student)
    (hq : js.toLowerCase q₁ = js.toLowerCase q₂)
    (hAB : List.Forall₂ (Student.sameUpToCase js) A B) :
    selectedPositions (studentMatches js (js.toLowerCase q₁)) A =
        selectedPositions (studentMatches js (js.toLowerCase q₂)) B ∧
      searchStudents asciiHost
          { samplePage with allStudents := some [aliceSmith], studentSearch := "ALICE" } =
        { state := displayStudents asciiHost (some [aliceSmith])
            { samplePage with allStudents := some [aliceSmith], studentSearch := "ALICE" },
          thrown := none } := by
  refine ⟨?_, by rfl⟩
  rw [hq]
  exact positions_congr _ _ A B
    (hAB.imp fun x y hxy => studentMatches_congr js _ x y hxy) 0

/-- C3 at a concrete input: the queries `ALICE` and `alice`, run on two spellings
of one student record, select the same position. -/
theorem searchStudents_case_insensitive_witness :
    selectedPositions (studentMatches asciiHost (asciiHost.toLowerCase "ALICE")) [aliceSmith] =
        selectedPositions (studentMatches asciiHost (asciiHost.toLowerCase "alice"))
          [aliceCapitals] ∧
      searchStudents asciiHost
          { samplePage with allStudents := some [aliceSmith], studentSearch := "ALICE" } =
        { state := displayStudents asciiHost (some [aliceSmith])
            { samplePage with allStudents := some [aliceSmith], studentSearch := "ALICE" },
          thrown := none } :=
  searchStudents_case_insensitive asciiHost "ALICE" "alice" [aliceSmith] [aliceCapitals]
    (by decide)
    (List.Forall₂.cons ⟨by simp only [aliceSmith, aliceCapitals, sameUpToCase]; decide,
      by simp only [aliceSmith, aliceCapitals, sameUpToCase]; decide⟩ List.Forall₂.nil)

/-! ## The caches are not written by filter and search -/

theorem displayTasks_frame (js : Host) (tasks : Option (List Task)) (st : State) :
    ∃ html, displayTasks js tasks st = { st with tasksList := html } := by
  unfold displayTasks
  split <;> exact ⟨_, rfl⟩

theorem displayStudents_frame (js : Host) (students : Option (List Student)) (st : State) :
    ∃ html, displayStudents js students st = { st with studentsList := html } := by
  unfold displayStudents
  split <;> exact ⟨_, rfl⟩

theorem displayMediaGallery_frame (js : Host) (media : Option (List MediaItem)) (st : State) :
    ∃ html, displayMediaGallery js media st = { st with mediaGallery := html } := by
  unfold displayMediaGallery
  split <;> exact ⟨_, rfl⟩

theorem filterTasks_frame (js : Host) (st : State) :
    ∃ html, (filterTasks js st).state = { st with tasksList := html } := by
  simp only [filterTasks]
  split_ifs with h
  · exact displayTasks_frame js _ st
  · split
    · exact ⟨st.tasksList, rfl⟩
    · exact displayTasks_frame js _ st

theorem searchTasks_frame (js : Host) (st : State) :
    ∃ html, (searchTasks js st).state = { st with tasksList := html } := by
  simp only [searchTasks]
  split
  · exact ⟨st.tasksList, rfl⟩
  · split
    · exact ⟨st.tasksList, rfl⟩
    · exact displayTasks_frame js _ st

theorem searchStudents_frame (js : Host) (st : State) :
    ∃ html, (searchStudents js st).state = { st with studentsList := html } := by
  simp only [searchStudents]
  split
  · exact ⟨st.studentsList, rfl⟩
  · split
    · exact ⟨st.studentsList, rfl⟩
    · exact displayStudents_frame js _ st

theorem filterMedia_frame (js : Host) (st : State) :
    ∃ html, (filterMedia js st).state = { st with mediaGallery := html } := by
  simp only [filterMedia]
  split_ifs with h
  · exact displayMediaGallery_frame js _ st
  · split
    · exact ⟨st.mediaGallery, rfl⟩
    · exact displayMediaGallery_frame js _ st

/-- C5: `filterTasks`, `searchTasks`, `searchStudents` and `filterMedia` leave the
caches as they found them. For every state, whatever the filter value or query
and whether or not the call ends with an exception, `allTasks`, `allStudents` and
`allMedia` are the same after the call, and the state after the call differs from
the state before it in nothing but the container the renderer writes. -/
theorem filter_and_search_keep_caches (js : Host) (st : State) :
    ((filterTasks js st).state.allTasks = st.allTasks ∧
      (filterTasks js st).state.allStudents = st.allStudents ∧
      (filterTasks js st).state.allMedia = st.allMedia ∧
      ∃ html, (filterTasks js st).state = { st with tasksList := html }) ∧
    ((searchTasks js st).state.allTasks = st.allTasks ∧
      (searchTasks js st).state.allStudents = st.allStudents ∧
      (searchTasks js st).state.allMedia = st.allMedia ∧
      ∃ html, (searchTasks js st).state = { st with tasksList := html }) ∧
    ((searchStudents js st).state.allTasks = st.allTasks ∧
      (searchStudents js st).state.allStudents = st.allStudents ∧
      (searchStudents js st).state.allMedia = st.allMedia ∧
      ∃ html, (searchStudents js st).state = { st with studentsList := html }) ∧
    ((filterMedia js st).state.allTasks = st.allTasks ∧
      (filterMedia js st).state.allStudents = st.allStudents ∧
      (filterMedia js st).state.allMedia = st.allMedia ∧
      ∃ html, (filterMedia js st).state = { st with mediaGallery := html }) := by
  obtain ⟨a, h₁⟩ := filterTasks_frame js st
  obtain ⟨b, h₂⟩ := searchTasks_frame js st
  obtain ⟨c, h₃⟩ := searchStudents_frame js st
  obtain ⟨d, h₄⟩ := filterMedia_frame js st
  refine ⟨⟨?_, ?_, ?_, a, h₁⟩, ⟨?_, ?_, ?_, b, h₂⟩, ⟨?_, ?_, ?_, c, h₃⟩, ⟨?_, ?_, ?_, d, h₄⟩⟩
  all_goals first
    | rw [h₁]
    | rw [h₂]
    | rw [h₃]
    | rw [h₄]

/-! ## CSV export -/

theorem length_splitOn {α : Type} [DecidableEq α] (a : α) (l : List α) :
    (l.splitOn a).length = l.count a + 1 := by
  induction l with
  | nil => simp
  | cons x xs ih =>
    simp only [List.splitOn] at ih ⊢
    rw [List.splitOnP_cons]
    by_cases h : x = a
    · subst h; simp [ih]
    · have : (x == a) = false := by simpa using h
      simp [this, ih, List.count_cons, h]

theorem intercalate_go_data (acc s : String) (l : List String) :
    (String.intercalate.go acc s l).data =
      acc.data ++ (l.map fun a => s.data ++ a.data).flatten := by
  induction l generalizing acc with
  | nil => simp [String.intercalate.go]
  | cons a l ih => simp [String.intercalate.go, ih, String.data_append]

theorem intercalate_data (s : String) (l : List String) :
    (String.intercalate s l).data = List.intercalate s.data (l.map String.data) := by
  cases l with
  | nil => rfl
  | cons a l =>
    simp only [String.intercalate, intercalate_go_data, List.map_cons, List.intercalate]
    induction l generalizing a with
    | nil => simp
    | cons b l ih =>
      simp only [List.map_cons, List.flatten_cons, List.intersperse_cons_cons]
      rw [← ih b]; simp [List.append_assoc]

theorem mem_intercalate {α : Type} (x : α) (sep : List α) (ls : List (List α))
    (h : x ∈ List.intercalate sep ls) : x ∈ sep ∨ ∃ l ∈ ls, x ∈ l := by
  induction ls with
  | nil => simp [List.intercalate] at h
  | cons a ls ih =>
    cases ls with
    | nil =>
      simp only [List.intercalate, List.intersperse_single, List.flatten_cons, List.flatten_nil,
        List.append_nil] at h
      exact Or.inr ⟨a, List.mem_cons_self _ _, h⟩
    | cons b ls =>
      simp only [List.intercalate, List.intersperse_cons_cons, List.flatten_cons,
        List.mem_append] at h
      rcases h with h | h | h
      · exact Or.inr ⟨a, List.mem_cons_self _ _, h⟩
      · exact Or.inl h
      · rcases ih (by simpa [List.intercalate] using h) with h | ⟨l, hl, hx⟩
        · exact Or.inl h
        · exact Or.inr ⟨l, List.mem_cons_of_mem _ hl, hx⟩

theorem convertTasksToCSV_eq (js : Host) (tasks : List Task) :
    convertTasksToCSV js tasks =
      String.intercalate "\n" (csvHeaderLine :: tasks.map (csvLine js)) := by
  simp only [convertTasksToCSV, List.map_cons, List.map_map]
  rfl

/-- C6, on a task whose caption holds a newline: the export of this one task has
three lines, not two. -/
theorem convertTasksToCSV_newline_in_field :
    (textLines (convertTasksToCSV asciiHost [multilineTask])).length = 3 ∧
      (textLines (convertTasksToCSV asciiHost [multilineTask])).length ≠
        [multilineTask].length + 1 := by
  decide

/-- C6, amended: for every list of `n` tasks, `convertTasksToCSV` returns the header
row and the `n` data rows joined by single newline characters, the header being the
eight column names joined by commas and the `i`-th data row being the row of the
`i`-th task; when no cell holds a newline character, the lines of the text are
exactly these `n + 1` rows. -/
theorem convertTasksToCSV_lines (js : Host) (tasks : List Task) :
    convertTasksToCSV js tasks =
        String.intercalate "\n" (csvHeaderLine :: tasks.map (csvLine js)) ∧
      arrayJoin "," csvHeaders = csvHeaderLine ∧
      (csvHeaderLine :: tasks.map (csvLine js)).length = tasks.length + 1 ∧
      ((∀ t ∈ tasks, ∀ v ∈ csvRow js t, '\n' ∉ v.joinText.toList) →
        textLines (convertTasksToCSV js tasks) = csvHeaderLine :: tasks.map (csvLine js) ∧
          (textLines (convertTasksToCSV js tasks)).length = tasks.length + 1) := by
  refine ⟨convertTasksToCSV_eq js tasks, by rfl, by simp, ?_⟩
  intro h
  have hrow : ∀ t ∈ tasks, '\n' ∉ (csvLine js t).data := by
    intro t ht hmem
    rw [csvLine, arrayJoin, intercalate_data] at hmem
    rcases mem_intercalate _ _ _ hmem with hsep | ⟨l, hl, hx⟩
    · revert hsep; decide
    · simp only [List.map_map, List.mem_map, Function.comp] at hl
      obtain ⟨v, hv, rfl⟩ := hl
      exact h t ht v hv hx
  have hlines : textLines (convertTasksToCSV js tasks) =
      csvHeaderLine :: tasks.map (csvLine js) := by
    rw [convertTasksToCSV_eq, textLines, String.toList, intercalate_data]
    have hsep : "\n".data = ['\n'] := rfl
    rw [hsep, List.splitOn_intercalate]
    · simp [List.map_map, Function.comp]
    · intro l hl
      simp only [List.map_cons, List.mem_cons, List.mem_map] at hl
      rcases hl with rfl | ⟨s, hs, rfl⟩
      · decide
      · obtain ⟨t, ht, rfl⟩ := hs
        exact hrow t ht
    · simp
  refine ⟨hlines, ?_⟩
  rw [hlines]; simp

/-- C6, amended, at a concrete input: the export of two tasks without newlines in
their fields has three lines, the header and one row for each task. -/
theorem convertTasksToCSV_lines_witness :
    textLines (convertTasksToCSV asciiHost [sampleTask, doneTask]) =
        csvHeaderLine :: [sampleTask, doneTask].map (csvLine asciiHost) ∧
      (textLines (convertTasksToCSV asciiHost [sampleTask, doneTask])).length =
        [sampleTask, doneTask].length + 1 :=
  (convertTasksToCSV_lines asciiHost [sampleTask, doneTask]).2.2.2 (by decide)

theorem csvCells_length (row : String) :
    (csvCells row).length = row.data.count ',' + 1 := by
  simp only [csvCells, List.length_map, String.toList, length_splitOn]

theorem csvLine_data (js : Host) (t : Task) :
    (csvLine js t).data =
      List.intercalate [','] ((csvRow js t).map fun v => v.joinText.data) := by
  rw [csvLine, arrayJoin, intercalate_data, List.map_map]
  rfl

/-- C7: `convertTasksToCSV` neither quotes nor escapes. For every task the data row
is the text of `taskId`, `studentName`, `registerNumber`, `aiCaption`, `location`,
`status`, `assignedTo` and the formatted `createdAt`, in this order, joined by
single commas; the text of a string field is the string itself; the row has eight
cells plus one for every comma inside a field, so a field that holds a comma makes
the row split into more than eight cells. -/
theorem convertTasksToCSV_row_verbatim (js : Host) (t : Task) :
    csvLine js t =
        t.taskId.joinText ++ "," ++ t.studentName.joinText ++ "," ++
          t.registerNumber.joinText ++ "," ++ t.aiCaption.joinText ++ "," ++
          t.location.joinText ++ "," ++ t.status.joinText ++ "," ++
          t.assignedTo.joinText ++ "," ++ js.dateToLocaleString t.createdAt ∧
      (∀ s : String, JSVal.joinText (.str s) = s) ∧
      convertTasksToCSV js [t] = csvHeaderLine ++ "\n" ++ csvLine js t ∧
      (csvCells (csvLine js t)).length =
        8 + ((csvRow js t).map fun v => v.joinText.toList.count ',').sum ∧
      ((∃ v ∈ csvRow js t, ',' ∈ v.joinText.toList) →
        8 < (csvCells (csvLine js t)).length) := by
  have hcount : (csvCells (csvLine js t)).length =
      8 + ((csvRow js t).map fun v => v.joinText.toList.count ',').sum := by
    rw [csvCells_length, csvLine_data]
    simp only [csvRow, List.map_cons, List.map_nil, List.intercalate, List.intersperse_cons_cons,
      List.intersperse_single, List.flatten_cons, List.flatten_nil, List.count_append,
      List.sum_cons, List.sum_nil, String.toList, List.append_nil]
    have hc : List.count ',' [','] = 1 := by decide
    simp only [hc]
    omega
  refine ⟨rfl, fun s => rfl, rfl, hcount, ?_⟩
  rintro ⟨v, hv, hmem⟩
  rw [hcount]
  have hpos : 0 < v.joinText.toList.count ',' := List.count_pos_iff.2 hmem
  have hle : v.joinText.toList.count ',' ≤
      ((csvRow js t).map fun v => v.joinText.toList.count ',').sum :=
    List.single_le_sum (fun _ _ => Nat.zero_le _) _ (List.mem_map.2 ⟨v, hv, rfl⟩)
  omega

/-- C7 at a concrete input: the row of a task whose location holds a comma splits
into more than eight cells. -/
theorem convertTasksToCSV_row_verbatim_witness :
    8 < (csvCells (csvLine asciiHost commaTask)).length :=
  (convertTasksToCSV_row_verbatim asciiHost commaTask).2.2.2.2
    ⟨.str "North gate, block B", by decide, by decide⟩

/-! ## Auto refresh -/

theorem toggleAutoRefresh_on (handle : Nat) (st : State) (h : st.autoRefreshEnabled = false) :
    toggleAutoRefresh handle st =
      { st with autoRefreshEnabled := true, autoRefreshIcon := "▶️",
                timers := st.timers ++ [handle], autoRefreshInterval := some handle } := by
  simp [toggleAutoRefresh, h, setInterval]

theorem toggleAutoRefresh_off (handle stored : Nat) (st : State)
    (h : st.autoRefreshEnabled = true) (hs : st.autoRefreshInterval = some stored)
    (hz : stored ≠ 0) :
    toggleAutoRefresh handle st =
      { st with autoRefreshEnabled := false, autoRefreshIcon := "⏸️",
                timers := st.timers.filter fun t => t != stored } := by
  simp [toggleAutoRefresh, h, hs, hz, clearInterval]

theorem toggled_invariant (st : State) (h : Toggled st) : TimerInvariant st := by
  induction h with
  | start st enabled handle timers => simp [TimerInvariant, enabled, timers]
  | toggle st handle reached nonzero fresh ih =>
    cases hen : st.autoRefreshEnabled with
    | false =>
      simp only [TimerInvariant, hen, Bool.false_eq_true, if_false] at ih
      rw [toggleAutoRefresh_on handle st hen]
      simp only [TimerInvariant, if_true, ih, List.nil_append]
      exact ⟨handle, nonzero, rfl, rfl⟩
    | true =>
      simp only [TimerInvariant, hen, if_true] at ih
      obtain ⟨stored, hz, hs, ht⟩ := ih
      rw [toggleAutoRefresh_off handle stored st hen hs hz]
      simp [TimerInvariant, ht]

/-- C8: in every state reached from the initial one (disabled, no handle, no timer)
by `toggleAutoRefresh` calls whose `setInterval` returns a non-zero handle that is
not live, exactly one timer is live when auto refresh is enabled and none when
it is disabled; so at most one timer is ever outstanding, and toggling on and then
off leaves no timer. -/
theorem toggleAutoRefresh_single_timer (st : State) (h : Toggled st) :
    st.timers.length = (if st.autoRefreshEnabled then 1 else 0) ∧
      TimerInvariant st ∧
      st.timers.length ≤ 1 ∧
      ∀ h₁ h₂ : Nat, h₁ ≠ 0 → st.autoRefreshEnabled = false →
        (toggleAutoRefresh h₁ st).timers = [h₁] ∧
          (toggleAutoRefresh h₂ (toggleAutoRefresh h₁ st)).timers = [] := by
  have inv := toggled_invariant st h
  have hlen : st.timers.length = (if st.autoRefreshEnabled then 1 else 0) := by
    cases hen : st.autoRefreshEnabled with
    | false =>
      simp only [TimerInvariant, hen, Bool.false_eq_true, if_false] at inv
      simp [inv]
    | true =>
      simp only [TimerInvariant, hen, if_true] at inv
      obtain ⟨stored, -, -, ht⟩ := inv
      simp [ht]
  refine ⟨hlen, inv, ?_, ?_⟩
  · rw [hlen]; split <;> simp
  · intro h₁ h₂ hz hen
    have ht : st.timers = [] := by
      simpa only [TimerInvariant, hen, Bool.false_eq_true, if_false] using inv
    have hon := toggleAutoRefresh_on h₁ st hen
    refine ⟨by rw [hon]; simp [ht], ?_⟩
    rw [toggleAutoRefresh_off h₂ h₁ (toggleAutoRefresh h₁ st) (by rw [hon]) (by rw [hon]) hz, hon]
    simp [ht]

/-- C8 at a concrete input: after switching auto refresh on once, `setInterval`
returning the handle `7`, at most one timer is live, and switching it off again
leaves no timer. -/
theorem toggleAutoRefresh_single_timer_witness :
    (toggleAutoRefresh 7 samplePage).timers.length ≤ 1 ∧
      (toggleAutoRefresh 9 (toggleAutoRefresh 7 samplePage)).timers = [] :=
  ⟨(toggleAutoRefresh_single_timer (toggleAutoRefresh 7 samplePage)
      (Toggled.toggle samplePage 7 (Toggled.start samplePage rfl rfl rfl)
        (by decide) (by decide))).2.2.1,
    ((toggleAutoRefresh_single_timer samplePage (Toggled.start samplePage rfl rfl rfl)).2.2.2
      7 9 (by decide) rfl).2⟩

/-! ## Loading the tasks -/

/-- When the `fetch` of `loadAllTasks` rejects, the `tasksList` container shows the
error placeholder. -/
theorem loadAllTasks_rejected (js : Host) (st : State) :
    (loadAllTasks js .rejected st).tasksList = tasksError := rfl

/-- When the body of a successful response cannot be read, the `tasksList`
container shows the error placeholder. -/
theorem loadAllTasks_unreadable (js : Host) (st : State) :
    (loadAllTasks js (.response true none) st).tasksList = tasksError := rfl

/-- C9, evaluated on a response with a non-success status: `loadAllTasks` returns
without writing the `tasksList` container, which keeps whatever it showed before
the call; on a page showing a loading text the container still shows it and not
the error placeholder. -/
theorem loadAllTasks_not_ok_keeps_container :
    (∀ (js : Host) (body : Option TasksData) (st : State),
        (loadAllTasks js (.response false body) st).tasksList = st.tasksList) ∧
      (loadAllTasks asciiHost (.response false none) loadingPage).tasksList =
        "<div class=\"loading\">Loading tasks...</div>" ∧
      (loadAllTasks asciiHost (.response false none) loadingPage).tasksList ≠ tasksError :=
  ⟨fun _ _ _ => rfl, by decide, by decide⟩

/-- C10: for every previous state, whatever its cache holds, and every successful
response whose body carries the task list `L`, `loadAllTasks` leaves `allTasks`
equal to `L` and calls the renderer with `L`: the state after the call is the one
`displayTasks` produces for `L` from the state whose cache is `L`. -/
theorem loadAllTasks_replaces_cache (js : Host) (st : State) (L : List Task) :
    (loadAllTasks js (.response true (some { tasks := some L })) st).allTasks = some L ∧
      loadAllTasks js (.response true (some { tasks := some L })) st =
        displayTasks js (some L)
          { st with requests := st.requests ++ [getAdminURL st ++ "/admin/all_tasks"],
                    allTasks := some L } := by
  refine ⟨?_, rfl⟩
  show (displayTasks js (some L) _).allTasks = some L
  obtain ⟨html, h⟩ := displayTasks_frame js (some L)
    { st with requests := st.requests ++ [getAdminURL st ++ "/admin/all_tasks"],
              allTasks := some L }
  rw [h]

/-! ## The staff-tasks modal -/

theorem setStaffTasksContent_twice (a b : String) (id name : JSVal) (st : State) :
    setStaffTasksContent a
        { setStaffTasksContent b st with currentStaffId := id, currentStaffName := name } =
      { setStaffTasksContent a st with currentStaffId := id, currentStaffName := name } := by
  cases hm : st.staffTasksModal <;> simp [setStaffTasksContent, hm]

theorem displayStaffTasks_frame (js : Host) (tasks : Option (List StaffTask))
    (staffId staffName : JSVal) (st : State) :
    (∃ html, (displayStaffTasks js tasks staffId staffName st).state =
        { setStaffTasksContent html st with
          currentStaffId := staffId, currentStaffName := staffName }) ∨
      (displayStaffTasks js tasks staffId staffName st).state =
        { st with currentStaffId := staffId, currentStaffName := staffName } := by
  simp only [displayStaffTasks]
  split
  · exact Or.inr rfl
  · split
    · exact Or.inl ⟨_, rfl⟩
    · exact Or.inl ⟨_, rfl⟩
    · split
      · exact Or.inr rfl
      · exact Or.inl ⟨_, rfl⟩

/-- Whatever the answer, `settleStaffTasks` changes nothing but the content of the
modal and the two module variables. -/
theorem settleStaffTasks_frame (js : Host) (net : Fetched StaffTasksData)
    (staffId staffName : JSVal) (st : State) :
    ∃ html id name, settleStaffTasks js net staffId staffName st =
      { setStaffTasksContent html st with currentStaffId := id, currentStaffName := name } := by
  unfold settleStaffTasks
  split
  · exact ⟨_, st.currentStaffId, st.currentStaffName, rfl⟩
  · exact ⟨_, st.currentStaffId, st.currentStaffName, rfl⟩
  · exact ⟨_, st.currentStaffId, st.currentStaffName, rfl⟩
  · rename_i data
    rcases displayStaffTasks_frame js data.tasks staffId staffName st with ⟨html, h⟩ | h
    · simp only
      split
      · exact ⟨html, staffId, staffName, h⟩
      · exact ⟨staffTasksError, staffId, staffName, by rw [h, setStaffTasksContent_twice]⟩
    · simp only
      split
      · refine ⟨(st.staffTasksModal.map fun m => m.content).getD "", staffId, staffName, ?_⟩
        rw [h]
        cases hm : st.staffTasksModal <;> simp [setStaffTasksContent, hm]
      · exact ⟨staffTasksError, staffId, staffName, by rw [h]; rfl⟩

/-- C11: for every staff id and name, `viewStaffTasks` has made the modal active,
set the `staffTasksContent` container to the loading placeholder and issued its
request to the pending-scoped endpoint of this staff id when it waits for the
answer; when it has run to completion, whatever the answer, this is the one
request it has issued and the modal is active. -/
theorem viewStaffTasks_opens (js : Host) (net : Fetched StaffTasksData)
    (staffId staffName : String) (st : State) :
    (viewStaffTasksOpen staffId staffName st).staffTasksModal.map (fun m => m.active) =
        some true ∧
      (viewStaffTasksOpen staffId staffName st).staffTasksModal.map (fun m => m.content) =
        some staffTasksLoading ∧
      (viewStaffTasksOpen staffId staffName st).requests =
        st.requests ++ [SERVER_URL st ++ "/admin/staff/" ++ staffId ++ "/tasks?status=pending"] ∧
      (viewStaffTasks js net staffId staffName st).requests =
        st.requests ++ [SERVER_URL st ++ "/admin/staff/" ++ staffId ++ "/tasks?status=pending"] ∧
      (viewStaffTasks js net staffId staffName st).staffTasksModal.map (fun m => m.active) =
        some true := by
  refine ⟨rfl, rfl, rfl, ?_, ?_⟩
  · obtain ⟨html, id, name, h⟩ := settleStaffTasks_frame js net (.str staffId) (.str staffName)
      (viewStaffTasksOpen staffId staffName st)
    rw [viewStaffTasks, h]
    rfl
  · obtain ⟨html, id, name, h⟩ := settleStaffTasks_frame js net (.str staffId) (.str staffName)
      (viewStaffTasksOpen staffId staffName st)
    rw [viewStaffTasks, h]
    rfl

/-- C12, evaluated after a failed view. The tasks of `S1` are viewed with success,
then the tasks of `S2` are asked for and the `fetch` rejects: the modal is titled
for the second staff member and shows the error, but the remembered id is still
`S1`, and choosing `completed` asks for the tasks of `S1`. When the very first view
fails no id is remembered and choosing a filter issues no request at all. -/
theorem filterStaffTasks_after_failed_view :
    afterFailedView.staffTasksModal.map (fun m => m.title) = some "Tasks for Bob" ∧
      afterFailedView.staffTasksModal.map (fun m => m.content) = some staffTasksError ∧
      afterFailedView.currentStaffId = .str "S1" ∧
      (filterStaffTasks asciiHost staffTasksOk
          (chooseStaffTasksFilter "completed" afterFailedView)).state.requests =
        ["http://localhost:5000/admin/staff/S1/tasks?status=pending",
         "http://localhost:5000/admin/staff/S2/tasks?status=pending",
         "http://localhost:5000/admin/staff/S1/tasks?status=completed"] ∧
      afterFirstFailedView.currentStaffId = .null ∧
      (filterStaffTasks asciiHost staffTasksOk
          (chooseStaffTasksFilter "completed" afterFirstFailedView)).state.requests =
        ["http://localhost:5000/admin/staff/S2/tasks?status=pending"] := by
  refine ⟨?_, ?_, ?_, ?_, ?_, ?_⟩ <;> rfl

theorem displayStaffTasks_ids (js : Host) (tasks : Option (List StaffTask))
    (staffId staffName : JSVal) (st : State) :
    (displayStaffTasks js tasks staffId staffName st).state.currentStaffId = staffId ∧
      (displayStaffTasks js tasks staffId staffName st).state.currentStaffName = staffName := by
  rcases displayStaffTasks_frame js tasks staffId staffName st with ⟨html, h⟩ | h <;>
    rw [h] <;> exact ⟨rfl, rfl⟩

/-- After a view whose response was a success with a readable body, the staff id of
this view is the remembered one. -/
theorem viewStaffTasks_remembers (js : Host) (data : StaffTasksData)
    (staffId staffName : String) (st : State) :
    (viewStaffTasks js (.response true (some data)) staffId staffName st).currentStaffId =
      .str staffId := by
  have h := (displayStaffTasks_ids js data.tasks (.str staffId) (.str staffName)
    (viewStaffTasksOpen staffId staffName st)).1
  simp only [viewStaffTasks, settleStaffTasks]
  split
  · exact h
  · exact h

/-- After a view of a staff member with a non-empty id whose response was a success
with a readable body, choosing a filter value issues one more request, scoped to
this staff id and this filter value, and the modal stays active. -/
theorem filterStaffTasks_after_view (js : Host) (data : StaffTasksData)
    (net : Fetched StaffTasksData) (staffId staffName value : String) (hid : staffId ≠ "")
    (st : State) :
    (filterStaffTasks js net (chooseStaffTasksFilter value
        (viewStaffTasks js (.response true (some data)) staffId staffName st))).state.requests =
      st.requests ++
        [SERVER_URL st ++ "/admin/staff/" ++ staffId ++ "/tasks?status=pending",
         SERVER_URL st ++ "/admin/staff/" ++ staffId ++ "/tasks?status=" ++ value] ∧
    (filterStaffTasks js net (chooseStaffTasksFilter value
        (viewStaffTasks js (.response true (some data)) staffId staffName st))).state.staffTasksModal.map
      (fun m => m.active) = some true := by
  have hrem := viewStaffTasks_remembers js data staffId staffName st
  obtain ⟨html, id, name, hv⟩ := settleStaffTasks_frame js (.response true (some data))
    (.str staffId) (.str staffName) (viewStaffTasksOpen staffId staffName st)
  rw [viewStaffTasks, hv] at hrem
  have hid' : id = .str staffId := hrem
  subst hid'
  rw [viewStaffTasks, hv]
  have htruthy : (JSVal.str staffId).truthy = true := by simpa [JSVal.truthy] using hid
  obtain ⟨html', id', name', hf⟩ := settleStaffTasks_frame js net (.str staffId) name
    { setStaffTasksContent staffTasksLoading
        (chooseStaffTasksFilter value
          { setStaffTasksContent html (viewStaffTasksOpen staffId staffName st) with
            currentStaffId := .str staffId, currentStaffName := name }) with
      requests := (st.requests ++
          [SERVER_URL st ++ "/admin/staff/" ++ staffId ++ "/tasks?status=pending"]) ++
        [SERVER_URL st ++ "/admin/staff/" ++ (JSVal.str staffId).toStr ++ "/tasks?status=" ++
          value] }
  simp only [filterStaffTasks, chooseStaffTasksFilter, setStaffTasksContent, viewStaffTasksOpen,
    Option.map_some', htruthy, Bool.not_true, Bool.false_eq_true, if_false, SERVER_URL] at hf ⊢
  rw [hf]
  simp [JSVal.toStr]

/-- C13, on a successful response holding a task without `status`: the renderer
raises a `TypeError` on this task, and the container shows the error markup of a
failed load although the load succeeded. -/
theorem filterStaffTasks_statusless_task :
    staffTaskCard asciiHost statuslessStaffTask = .error .typeError ∧
      (filterStaffTasks asciiHost
          (.response true (some { tasks := some [statuslessStaffTask] }))
          staffTasksPage).state.staffTasksModal.map (fun m => m.content) =
        some staffTasksError ∧
      (filterStaffTasks asciiHost
          (.response true (some { tasks := some [statuslessStaffTask] }))
          staffTasksPage).thrown = none := by
  refine ⟨?_, ?_, ?_⟩ <;> rfl

/-- C13, amended: with the modal present and a remembered staff id, what the
`staffTasksContent` container shows once `filterStaffTasks` has run to completion
is a function of the new answer alone, whatever was shown before: the cards of the
tasks of a successful response when the renderer can build them all (the
placeholder when the list is empty or absent), and the error markup when the
`fetch` rejects, the status is not a success, the body cannot be read or the
renderer raises an exception. Nothing else of the modal changes. -/
theorem filterStaffTasks_replaces_content (js : Host) (net : Fetched StaffTasksData)
    (st : State) (modal : StaffModal) (hm : st.staffTasksModal = some modal)
    (hid : st.currentStaffId.truthy = true) :
    (filterStaffTasks js net st).state.staffTasksModal =
        some { modal with content := staffTasksView js net } ∧
      (filterStaffTasks js net st).thrown = none ∧
      staffTasksView js .rejected = staffTasksError ∧
      (∀ body, staffTasksView js (.response false body) = staffTasksError) ∧
      staffTasksView js (.response true (some { tasks := none })) = staffTasksEmpty ∧
      staffTasksView js (.response true (some { tasks := some [] })) = staffTasksEmpty ∧
      (∀ (tasks : List StaffTask) (cards : List String), tasks ≠ [] →
        jsMap (staffTaskCard js) tasks = .ok cards →
        staffTasksView js (.response true (some { tasks := some tasks })) = String.join cards) := by
  refine ⟨?_, ?_, rfl, fun _ => rfl, rfl, rfl, ?_⟩
  · simp only [filterStaffTasks, hm, hid, Bool.not_true, Bool.false_eq_true, if_false]
    cases net with
    | rejected => simp [settleStaffTasks, setStaffTasksContent, hm, staffTasksView]
    | response ok body =>
      cases ok with
      | false => simp [settleStaffTasks, setStaffTasksContent, hm, staffTasksView]
      | true =>
        cases body with
        | none => simp [settleStaffTasks, setStaffTasksContent, hm, staffTasksView]
        | some data =>
          obtain ⟨tasks⟩ := data
          rcases tasks with _ | _ | ⟨t, ts⟩
          · simp [settleStaffTasks, displayStaffTasks, setStaffTasksContent, hm, staffTasksView]
          · simp [settleStaffTasks, displayStaffTasks, setStaffTasksContent, hm, staffTasksView]
          · cases hc : jsMap (staffTaskCard js) (t :: ts) <;>
              simp [settleStaffTasks, displayStaffTasks, setStaffTasksContent, hm, staffTasksView,
                hc]
  · simp only [filterStaffTasks, hm, hid, Bool.not_true, Bool.false_eq_true, if_false]
  · intro tasks cards hne hcards
    cases tasks with
    | nil => exact absurd rfl hne
    | cons t ts => simp [staffTasksView, hcards]

/-- C13, amended, at a concrete input: on the page showing the tasks of `S1`, a
rejected `fetch` leaves the error markup in the container and the modal active. -/
theorem filterStaffTasks_replaces_content_witness :
    (filterStaffTasks asciiHost .rejected staffTasksPage).state.staffTasksModal =
      some { active := true, content := staffTasksError, title := "Tasks for Ann",
             filter := "pending" } :=
  (filterStaffTasks_replaces_content asciiHost .rejected staffTasksPage
    { active := true
      content := staffTasksView asciiHost staffTasksOk
      title := "Tasks for Ann"
      filter := "pending" } (by rfl) (by rfl)).1

/-! ## Choice of the server -/

/-- After a probe that rejected, `getAdminURL` returns `SERVER_URL`. -/
theorem getAdminURL_after_rejection (st : State) :
    getAdminURL (checkAdminServer .rejected st) = SERVER_URL st := rfl

/-- After a probe answered with a success status, `getAdminURL` returns
`ADMIN_SERVER_URL`. -/
theorem getAdminURL_after_ok (body : Option Unit) (st : State) :
    getAdminURL (checkAdminServer (.response true body) st) = ADMIN_SERVER_URL st := rfl

/-- C14, evaluated on a probe answered with a non-success status: `checkAdminServer`
leaves `useAdminServer` as it was, which is `true` when the page has just been
loaded, so on a page served from port 5000 `getAdminURL` returns the address with
port 5001 and not `SERVER_URL`. -/
theorem getAdminURL_after_not_ok :
    (∀ (body : Option Unit) (st : State),
        (checkAdminServer (.response false body) st).useAdminServer = st.useAdminServer) ∧
      getAdminURL (checkAdminServer (.response false none) samplePage) =
        "http://localhost:5001" ∧
      SERVER_URL (checkAdminServer (.response false none) samplePage) =
        "http://localhost:5000" ∧
      getAdminURL (checkAdminServer (.response false none) samplePage) ≠
        SERVER_URL (checkAdminServer (.response false none) samplePage) :=
  ⟨fun _ _ => rfl, by decide, by decide, by decide⟩

/-! ## Absent fields in the search -/

/-- C17, evaluated on snapshots holding a record with an absent field. Whatever
the query and the records after it, a first record without `aiCaption` makes
`searchTasks` end with a `TypeError` before the renderer is called, although
`displayTasks` renders this record with its `No caption` default; a record
without `studentName` or without `location` does the same for a query that its
caption does not contain. -/
theorem searchTasks_absent_field_throws (js : Host) (st : State) (query : String)
    (rest : List Task) :
    searchTasks js { st with allTasks := some (uncaptionedTask :: rest), taskSearch := query } =
        { state := { st with allTasks := some (uncaptionedTask :: rest), taskSearch := query },
          thrown := some .typeError } ∧
      (displayTasks js (some [uncaptionedTask]) st).tasksList = taskCard js uncaptionedTask ∧
      (uncaptionedTask.aiCaption.orElse (.str "No caption")).toStr = "No caption" ∧
      (searchTasks asciiHost
          { samplePage with allTasks := some [unnamedTask], taskSearch := "oak" }).thrown =
        some .typeError ∧
      (searchTasks asciiHost
          { samplePage with allTasks := some [unlocatedTask], taskSearch := "oak" }).thrown =
        some .typeError := by
  refine ⟨?_, ?_, by decide, by decide, by decide⟩
  · simp [searchTasks, jsFilter, taskMatches, toLowerCaseOf, uncaptionedTask]
  · simp [displayTasks, String.join]

/-! ## A failed load and the cache -/

/-- A failed load of the tasks changes nothing but the request log and, when the
`fetch` rejected, the `tasksList` container. -/
theorem loadAllTasks_failed_frame (js : Host) (net : Fetched TasksData)
    (hfail : net.failed = true) (st : State) :
    ∃ html, loadAllTasks js net st =
      { st with requests := st.requests ++ [getAdminURL st ++ "/admin/all_tasks"],
                tasksList := html } := by
  cases net with
  | rejected => exact ⟨tasksError, rfl⟩
  | response ok body =>
    cases ok with
    | false => exact ⟨st.tasksList, rfl⟩
    | true => simp [Fetched.failed] at hfail

/-- C18: when the `fetch` of `loadAllTasks` rejects or is answered with a
non-success status, `allTasks` after the call is `allTasks` before it; and with a
cached snapshot, `filterTasks`, `searchTasks` and `exportTasks` called after the
failed load filter, search and export the records of this snapshot. -/
theorem loadAllTasks_failure_keeps_cache (js : Host) (net : Fetched TasksData)
    (hfail : net.failed = true) (st : State) (snap : List Task) :
    (loadAllTasks js net st).allTasks = st.allTasks ∧
      filterTasks js (loadAllTasks js net { st with allTasks := some snap }) =
        { state := displayTasks js
            (some (if st.taskStatusFilter = "all" then snap
              else snap.filter fun t => decide (t.status = JSVal.str st.taskStatusFilter)))
            (loadAllTasks js net { st with allTasks := some snap }),
          thrown := none } ∧
      searchTasks js (loadAllTasks js net { st with allTasks := some snap }) =
        (match jsFilter (taskMatches js (js.toLowerCase st.taskSearch)) snap with
          | .error e =>
            { state := loadAllTasks js net { st with allTasks := some snap }, thrown := some e }
          | .ok kept =>
            { state := displayTasks js (some kept)
                (loadAllTasks js net { st with allTasks := some snap }),
              thrown := none }) ∧
      exportTasks js (loadAllTasks js net { st with allTasks := some snap }) =
        { state := downloadCSV (convertTasksToCSV js snap) "tasks_export.csv"
            (loadAllTasks js net { st with allTasks := some snap }),
          thrown := none } := by
  obtain ⟨html, h⟩ := loadAllTasks_failed_frame js net hfail st
  obtain ⟨html', h'⟩ := loadAllTasks_failed_frame js net hfail { st with allTasks := some snap }
  refine ⟨by rw [h], ?_, ?_, ?_⟩
  · rw [h']
    by_cases hall : st.taskStatusFilter = "all"
    · simp [filterTasks, hall]
    · simp [filterTasks, hall, strictEq_eq_decide]
  · rw [h']
    simp only [searchTasks]
  · rw [h']
    simp only [exportTasks]

/-- C18 at a concrete input: after a rejected `fetch` on a page caching one task,
the cache still holds this task and the export is the export of this task. -/
theorem loadAllTasks_failure_keeps_cache_witness :
    (loadAllTasks asciiHost .rejected { samplePage with allTasks := some [sampleTask] }).allTasks =
        some [sampleTask] ∧
      exportTasks asciiHost
          (loadAllTasks asciiHost .rejected { samplePage with allTasks := some [sampleTask] }) =
        { state := downloadCSV (convertTasksToCSV asciiHost [sampleTask]) "tasks_export.csv"
            (loadAllTasks asciiHost .rejected { samplePage with allTasks := some [sampleTask] }),
          thrown := none } :=
  have h := loadAllTasks_failure_keeps_cache asciiHost .rejected (by rfl)
    { samplePage with allTasks := some [sampleTask] } [sampleTask]
  ⟨h.1, h.2.2.2⟩

/-! ## Refresh -/

theorem whenOk_frame {β : Type} (use : β → State → State)
    (huse : ∀ d st, ∃ stats, use d st = { st with stats := stats })
    (ok : Bool) (body : Option β) (st : State) :
    ∃ stats, (whenOk ok body use st).1 = { st with stats := stats } := by
  unfold whenOk
  cases ok with
  | false => exact ⟨st.stats, rfl⟩
  | true =>
    cases body with
    | none => exact ⟨st.stats, rfl⟩
    | some d => exact huse d st

/-- Whatever the answers, `loadStats` changes nothing but the request log, the
counters and the time text. -/
theorem loadStats_frame (workload : Fetched WorkloadData) (queue : Fetched QueueData)
    (students : Fetched StudentsData) (clock : String) (st : State) :
    ∃ stats time, loadStats workload queue students clock st =
      { st with requests := st.requests ++ statsRequests st, stats := stats,
                lastUpdate := time } := by
  cases workload with
  | rejected => exact ⟨st.stats, st.lastUpdate, rfl⟩
  | response wok wbody =>
    cases queue with
    | rejected => exact ⟨st.stats, st.lastUpdate, rfl⟩
    | response qok qbody =>
      cases students with
      | rejected => exact ⟨st.stats, st.lastUpdate, rfl⟩
      | response sok sbody =>
        obtain ⟨s₁, h₁⟩ := whenOk_frame showWorkload (fun _ _ => ⟨_, rfl⟩) wok wbody
          { st with requests := st.requests ++ statsRequests st }
        obtain ⟨s₂, h₂⟩ := whenOk_frame showQueue (fun _ _ => ⟨_, rfl⟩) qok qbody
          (whenOk wok wbody showWorkload
            { st with requests := st.requests ++ statsRequests st }).1
        obtain ⟨s₃, h₃⟩ := whenOk_frame showStudentTotal (fun _ _ => ⟨_, rfl⟩) sok sbody
          (whenOk qok qbody showQueue (whenOk wok wbody showWorkload
            { st with requests := st.requests ++ statsRequests st }).1).1
        simp only [loadStats, statsRequests] at h₁ h₂ h₃ ⊢
        split_ifs
        · exact ⟨s₁, st.lastUpdate, by rw [h₁]⟩
        · exact ⟨s₂, st.lastUpdate, by rw [h₂, h₁]⟩
        · exact ⟨s₃, st.lastUpdate, by rw [h₃, h₂, h₁]⟩
        · exact ⟨s₃, clock, by rw [h₃, h₂, h₁]; rfl⟩

/-- When its three requests fail, `loadStats` writes no counter. -/
theorem loadStats_failed (workload : Fetched WorkloadData) (queue : Fetched QueueData)
    (students : Fetched StudentsData) (hw : workload.failed = true) (hq : queue.failed = true)
    (hs : students.failed = true) (clock : String) (st : State) :
    ∃ time, loadStats workload queue students clock st =
      { st with requests := st.requests ++ statsRequests st, lastUpdate := time } := by
  cases workload with
  | rejected => exact ⟨st.lastUpdate, rfl⟩
  | response wok wbody =>
    cases queue with
    | rejected => exact ⟨st.lastUpdate, rfl⟩
    | response qok qbody =>
      cases students with
      | rejected => exact ⟨st.lastUpdate, rfl⟩
      | response sok sbody =>
        simp only [Fetched.failed, Bool.not_eq_true'] at hw hq hs
        subst hw hq hs
        exact ⟨clock, rfl⟩

theorem loadRecentActivity_failed (js : Host) (net : Fetched ActivityData)
    (hfail : net.failed = true) (st : State) :
    ∃ html, loadRecentActivity js net st =
      { st with requests := st.requests ++ [SERVER_URL st ++ "/admin/recent_activity"],
                recentActivityList := html } := by
  cases net with
  | rejected => exact ⟨noRecentActivity, rfl⟩
  | response ok body =>
    cases ok with
    | false => exact ⟨st.recentActivityList, rfl⟩
    | true => simp [Fetched.failed] at hfail

theorem loadStudents_failed (js : Host) (net : Fetched StudentsData)
    (hfail : net.failed = true) (st : State) :
    ∃ html, loadStudents js net st =
      { st with requests := st.requests ++ [SERVER_URL st ++ "/admin/all_students"],
                studentsList := html } := by
  cases net with
  | rejected => exact ⟨studentsError, rfl⟩
  | response ok body =>
    cases ok with
    | false => exact ⟨st.studentsList, rfl⟩
    | true => simp [Fetched.failed] at hfail

theorem loadMediaGallery_failed (js : Host) (net : Fetched MediaData)
    (hfail : net.failed = true) (st : State) :
    ∃ html, loadMediaGallery js net st =
      { st with requests := st.requests ++ [SERVER_URL st ++ "/admin/media_gallery"],
                mediaGallery := html } := by
  cases net with
  | rejected => exact ⟨mediaError, rfl⟩
  | response ok body =>
    cases ok with
    | false => exact ⟨st.mediaGallery, rfl⟩
    | true => simp [Fetched.failed] at hfail

theorem loadAnalytics_failed (net : Fetched AnalyticsData) (hfail : net.failed = true)
    (st : State) :
    loadAnalytics net st =
      { st with requests := st.requests ++
          [SERVER_URL st ++ "/admin/analytics?range=" ++ st.analyticsRange] } := by
  cases net with
  | rejected => rfl
  | response ok body =>
    cases ok with
    | false => rfl
    | true => simp [Fetched.failed] at hfail

theorem loadStaffManagement_failed (js : Host) (net : Fetched StaffData)
    (fallback : Fetched WorkloadData) (hfail : net.failed = true)
    (hfallback : fallback.failed = true) (st : State) :
    ∃ requests html, loadStaffManagement js net fallback st =
      { st with requests := requests, staffList := html } := by
  cases net with
  | rejected => exact ⟨_, staffError, rfl⟩
  | response ok body =>
    cases ok with
    | true => simp [Fetched.failed] at hfail
    | false =>
      cases fallback with
      | rejected => exact ⟨_, staffError, rfl⟩
      | response ok' body' =>
        cases ok' with
        | false => exact ⟨_, st.staffList, rfl⟩
        | true => simp [Fetched.failed] at hfallback

/-- When every `fetch` fails, a section loader changes nothing but the request
log, the time text and the containers that show a placeholder: the caches, the
counters and the analytics container stay as they were. -/
theorem loadSectionData_failed (js : Host) (net : Network) (hfail : net.allFailed = true)
    (sectionId : String) (st : State) :
    ∃ requests time tasks staff students media activity,
      loadSectionData js net sectionId st =
        { st with requests := requests, lastUpdate := time, tasksList := tasks,
                  staffList := staff, studentsList := students, mediaGallery := media,
                  recentActivityList := activity } := by
  simp only [Network.allFailed, Bool.and_eq_true] at hfail
  obtain ⟨⟨⟨⟨⟨⟨⟨hw, hq⟩, hs⟩, hr⟩, ht⟩, hf⟩, hm⟩, ha⟩ := hfail
  unfold loadSectionData
  split_ifs
  · obtain ⟨time, h₁⟩ := loadStats_failed net.workload net.queueStatus net.allStudents hw hq hs
      net.clock st
    obtain ⟨html, h₂⟩ := loadRecentActivity_failed js net.recentActivity hr
      (loadStats net.workload net.queueStatus net.allStudents net.clock st)
    rw [loadDashboard, loadCharts, h₂, h₁]
    exact ⟨_, time, st.tasksList, st.staffList, st.studentsList, st.mediaGallery, html, rfl⟩
  · obtain ⟨html, h⟩ := loadAllTasks_failed_frame js net.allTasks ht st
    rw [h]
    exact ⟨_, st.lastUpdate, html, st.staffList, st.studentsList, st.mediaGallery,
      st.recentActivityList, rfl⟩
  · obtain ⟨requests, html, h⟩ := loadStaffManagement_failed js net.allStaff net.workload hf hw st
    rw [h]
    exact ⟨requests, st.lastUpdate, st.tasksList, html, st.studentsList, st.mediaGallery,
      st.recentActivityList, rfl⟩
  · obtain ⟨html, h⟩ := loadStudents_failed js net.allStudents hs st
    rw [h]
    exact ⟨_, st.lastUpdate, st.tasksList, st.staffList, html, st.mediaGallery,
      st.recentActivityList, rfl⟩
  · obtain ⟨html, h⟩ := loadMediaGallery_failed js net.mediaGallery hm st
    rw [h]
    exact ⟨_, st.lastUpdate, st.tasksList, st.staffList, st.studentsList, html,
      st.recentActivityList, rfl⟩
  · rw [loadAnalytics_failed net.analytics ha st]
    exact ⟨_, st.lastUpdate, st.tasksList, st.staffList, st.studentsList, st.mediaGallery,
      st.recentActivityList, rfl⟩
  · exact ⟨st.requests, st.lastUpdate, st.tasksList, st.staffList, st.studentsList,
      st.mediaGallery, st.recentActivityList, rfl⟩

/-! ## Runs in flight -/

theorem runSteps_nil (st : State) : runSteps [] st = st := rfl

theorem runSteps_cons (x : State → State) (xs : List (State → State)) (st : State) :
    runSteps (x :: xs) st = runSteps xs (x st) := rfl

theorem runSteps_append (xs ys : List (State → State)) (st : State) :
    runSteps (xs ++ ys) st = runSteps ys (runSteps xs st) := by
  simp [runSteps, List.foldl_append]

/-- Steps that leave a part of the state as it is leave it so together. -/
theorem runSteps_keeps {α : Type} (π : State → α) (ys : List (State → State))
    (hy : ∀ y ∈ ys, ∀ a, π (y a) = π a) (a : State) : π (runSteps ys a) = π a := by
  induction ys generalizing a with
  | nil => rfl
  | cons y ys ih =>
    rw [runSteps_cons, ih (fun z hz => hy z (List.mem_cons_of_mem _ hz)),
      hy y (List.mem_cons_self _ _)]

/-- Steps whose effect on a part of the state depends on that part only. -/
theorem runSteps_respects {α : Type} (π : State → α) (xs : List (State → State))
    (hx : ∀ x ∈ xs, ∀ a b, π a = π b → π (x a) = π (x b)) (a b : State) (h : π a = π b) :
    π (runSteps xs a) = π (runSteps xs b) := by
  induction xs generalizing a b with
  | nil => exact h
  | cons x xs ih =>
    rw [runSteps_cons, runSteps_cons]
    exact ih (fun z hz => hx z (List.mem_cons_of_mem _ hz)) _ _
      (hx x (List.mem_cons_self _ _) a b h)

/-- A part of the state the second run leaves as it is, and on which the effect of
the first run depends on that part only, ends as the first run alone leaves it,
whatever the order of the steps. -/
theorem interleave_left {α : Type} (π : State → α) (order : List Bool)
    (xs ys : List (State → State))
    (hx : ∀ x ∈ xs, ∀ a b, π a = π b → π (x a) = π (x b))
    (hy : ∀ y ∈ ys, ∀ a, π (y a) = π a) (a b : State) (h : π a = π b) :
    π (interleave order xs ys a) = π (runSteps xs b) := by
  induction order generalizing xs ys a b with
  | nil =>
    rw [interleave, runSteps_keeps π ys hy]
    exact runSteps_respects π xs hx a b h
  | cons o order ih =>
    cases o with
    | true =>
      cases xs with
      | nil =>
        rw [interleave]
        exact ih [] ys hx hy a b h
      | cons x xs =>
        rw [interleave, runSteps_cons]
        exact ih xs ys (fun z hz => hx z (List.mem_cons_of_mem _ hz)) hy _ _
          (hx x (List.mem_cons_self _ _) a b h)
    | false =>
      cases ys with
      | nil =>
        rw [interleave]
        exact ih xs [] hx hy a b h
      | cons y ys =>
        rw [interleave]
        exact ih xs ys hx (fun z hz => hy z (List.mem_cons_of_mem _ hz)) _ _
          ((hy y (List.mem_cons_self _ _) a).trans h)

/-- The same for a part of the state the first run leaves as it is. -/
theorem interleave_right {α : Type} (π : State → α) (order : List Bool)
    (xs ys : List (State → State))
    (hx : ∀ x ∈ xs, ∀ a, π (x a) = π a)
    (hy : ∀ y ∈ ys, ∀ a b, π a = π b → π (y a) = π (y b)) (a b : State) (h : π a = π b) :
    π (interleave order xs ys a) = π (runSteps ys b) := by
  induction order generalizing xs ys a b with
  | nil =>
    rw [interleave]
    exact runSteps_respects π ys hy _ _ ((runSteps_keeps π xs hx a).trans h)
  | cons o order ih =>
    cases o with
    | true =>
      cases xs with
      | nil =>
        rw [interleave]
        exact ih [] ys hx hy a b h
      | cons x xs =>
        rw [interleave]
        exact ih xs ys (fun z hz => hx z (List.mem_cons_of_mem _ hz)) hy _ _
          ((hx x (List.mem_cons_self _ _) a).trans h)
    | false =>
      cases ys with
      | nil =>
        rw [interleave]
        exact ih xs [] hx hy a b h
      | cons y ys =>
        rw [interleave, runSteps_cons]
        exact ih xs ys hx (fun z hz => hy z (List.mem_cons_of_mem _ hz)) _ _
          (hy y (List.mem_cons_self _ _) a b h)

/-- A part of the state both runs leave as it is. -/
theorem interleave_keeps {α : Type} (π : State → α) (order : List Bool)
    (xs ys : List (State → State))
    (hx : ∀ x ∈ xs, ∀ a, π (x a) = π a) (hy : ∀ y ∈ ys, ∀ a, π (y a) = π a) (a : State) :
    π (interleave order xs ys a) = π a := by
  rw [interleave_left π order xs ys (fun x hxm a b h => by rw [hx x hxm, hx x hxm, h]) hy a a rfl]
  exact runSteps_keeps π xs hx a

theorem mem_untilThrown (steps : List (Option (State → State))) (y : State → State)
    (h : y ∈ untilThrown steps) : some y ∈ steps := by
  induction steps with
  | nil => simp [untilThrown] at h
  | cons s steps ih =>
    cases s with
    | none => simp [untilThrown] at h
    | some f =>
      simp only [untilThrown, List.mem_cons] at h
      rcases h with h | h
      · simp [h]
      · exact List.mem_cons_of_mem _ (ih h)

theorem whenOkStep_eq_some {β : Type} (ok : Bool) (body : Option β)
    (use : β → State → State) (y : State → State) (h : whenOkStep ok body use = some y) :
    y = id ∨ ∃ data, y = use data := by
  cases ok <;> cases body <;> simp [whenOkStep] at h
  · exact Or.inl h.symm
  · exact Or.inl h.symm
  · exact Or.inr ⟨_, h.symm⟩

/-- What a step of `loadStats` can be. -/
theorem loadStatsSteps_mem (workload : Fetched WorkloadData) (queue : Fetched QueueData)
    (students : Fetched StudentsData) (clock : String) (y : State → State)
    (h : y ∈ loadStatsSteps workload queue students clock) :
    y = id ∨ (∃ data, y = showWorkload data) ∨ (∃ data, y = showQueue data) ∨
      (∃ data, y = showStudentTotal data) ∨ y = updateLastUpdateTime clock := by
  unfold loadStatsSteps at h
  split at h
  · have h := mem_untilThrown _ _ h
    simp only [List.mem_cons, List.mem_singleton, List.not_mem_nil, or_false] at h
    rcases h with h | h | h | h
    · rcases whenOkStep_eq_some _ _ _ _ h.symm with h | h
      · exact Or.inl h
      · exact Or.inr (Or.inl h)
    · rcases whenOkStep_eq_some _ _ _ _ h.symm with h | h
      · exact Or.inl h
      · exact Or.inr (Or.inr (Or.inl h))
    · rcases whenOkStep_eq_some _ _ _ _ h.symm with h | h
      · exact Or.inl h
      · exact Or.inr (Or.inr (Or.inr (Or.inl h)))
    · simp only [Option.some.injEq] at h
      exact Or.inr (Or.inr (Or.inr (Or.inr h)))
  · simp at h

/-- The steps `loadStats` takes when its three requests fail write no counter. -/
theorem loadStatsSteps_failed_mem (workload : Fetched WorkloadData) (queue : Fetched QueueData)
    (students : Fetched StudentsData) (hw : workload.failed = true) (hq : queue.failed = true)
    (hs : students.failed = true) (clock : String) (y : State → State)
    (h : y ∈ loadStatsSteps workload queue students clock) :
    y = id ∨ y = updateLastUpdateTime clock := by
  unfold loadStatsSteps at h
  split at h
  · simp only [Fetched.failed, Bool.not_eq_true'] at hw hq hs
    subst hw hq hs
    simp only [whenOkStep, untilThrown, Bool.false_eq_true, if_false, List.mem_cons,
      List.mem_singleton, List.not_mem_nil, or_false] at h
    rcases h with h | h | h | h
    · exact Or.inl h
    · exact Or.inl h
    · exact Or.inl h
    · exact Or.inr h
  · simp at h

/-- The function `loadStats` is its start followed by its steps. -/
theorem loadStats_eq_steps (workload : Fetched WorkloadData) (queue : Fetched QueueData)
    (students : Fetched StudentsData) (clock : String) (st : State) :
    loadStats workload queue students clock st =
      runSteps (loadStatsSteps workload queue students clock) (loadStatsStart st) := by
  rcases workload with _ | ⟨wok, wbody⟩ <;> rcases queue with _ | ⟨qok, qbody⟩ <;>
    rcases students with _ | ⟨sok, sbody⟩ <;> try rfl
  cases wok <;> cases wbody <;> cases qok <;> cases qbody <;> cases sok <;> cases sbody <;> rfl

theorem runSteps_comm (g : State → State) (ys : List (State → State))
    (h : ∀ y ∈ ys, ∀ a, y (g a) = g (y a)) (a : State) :
    runSteps ys (g a) = g (runSteps ys a) := by
  induction ys generalizing a with
  | nil => rfl
  | cons y ys ih =>
    rw [runSteps_cons, runSteps_cons, h y (List.mem_cons_self _ _),
      ih (fun z hz => h z (List.mem_cons_of_mem _ hz))]

theorem loadRecentActivity_eq_steps (js : Host) (net : Fetched ActivityData) (st : State) :
    loadRecentActivity js net st =
      loadRecentActivitySettle js net (loadRecentActivityStart st) := rfl

/-- The function `loadDashboard` is its start followed by its steps. -/
theorem loadDashboard_eq_steps (js : Host) (net : Network) (st : State) :
    loadDashboard js net st = runSteps (loadDashboardSteps js net) (loadDashboardStart st) := by
  simp only [loadDashboard, loadDashboardSteps, loadDashboardStart, loadCharts,
    runSteps_append, runSteps_cons, runSteps_nil, loadStats_eq_steps,
    loadRecentActivity_eq_steps]
  rw [runSteps_comm loadRecentActivityStart]
  intro y hy a
  rcases loadStatsSteps_mem _ _ _ _ y hy with h | ⟨d, h⟩ | ⟨d, h⟩ | ⟨d, h⟩ | h <;> subst h <;> rfl

theorem loadSectionData_eq_steps (js : Host) (net : Network) (sectionId : String) (st : State) :
    loadSectionData js net sectionId st =
      runSteps (loadSectionDataSteps js net sectionId) (loadSectionDataStart sectionId st) := by
  unfold loadSectionData loadSectionDataSteps loadSectionDataStart
  split_ifs
  · exact loadDashboard_eq_steps js net st
  · rfl
  · simp only [loadStaffManagement, loadStaffManagementSteps, loadStaffManagementStart]
    rcases net.allStaff with _ | ⟨ok, body⟩
    · rfl
    · cases ok <;> cases body <;> rfl
  · rfl
  · rfl
  · rfl
  · rfl

/-! ## What the steps of a tick read and write -/

theorem loadStatsSteps_keep_view (workload : Fetched WorkloadData) (queue : Fetched QueueData)
    (students : Fetched StudentsData) (clock : String) (y : State → State)
    (h : y ∈ loadStatsSteps workload queue students clock) (a : State) :
    (y a).sectionView = a.sectionView := by
  rcases loadStatsSteps_mem _ _ _ _ y h with h | ⟨d, h⟩ | ⟨d, h⟩ | ⟨d, h⟩ | h <;> subst h <;> rfl

theorem loadStatsSteps_keep_requests (workload : Fetched WorkloadData)
    (queue : Fetched QueueData) (students : Fetched StudentsData) (clock : String)
    (y : State → State) (h : y ∈ loadStatsSteps workload queue students clock) (a : State) :
    ((y a).origin, (y a).requests) = (a.origin, a.requests) := by
  rcases loadStatsSteps_mem _ _ _ _ y h with h | ⟨d, h⟩ | ⟨d, h⟩ | ⟨d, h⟩ | h <;> subst h <;> rfl

theorem loadStatsSteps_respect_stats (workload : Fetched WorkloadData)
    (queue : Fetched QueueData) (students : Fetched StudentsData) (clock : String)
    (y : State → State) (h : y ∈ loadStatsSteps workload queue students clock) (a b : State)
    (hab : (a.stats, a.lastUpdate) = (b.stats, b.lastUpdate)) :
    ((y a).stats, (y a).lastUpdate) = ((y b).stats, (y b).lastUpdate) := by
  simp only [Prod.mk.injEq] at hab
  obtain ⟨h₁, h₂⟩ := hab
  rcases loadStatsSteps_mem _ _ _ _ y h with h | ⟨d, h⟩ | ⟨d, h⟩ | ⟨d, h⟩ | h <;> subst h <;>
    simp [showWorkload, showQueue, showStudentTotal, updateLastUpdateTime, h₁, h₂]

theorem loadStatsSteps_failed_keep_stats (workload : Fetched WorkloadData)
    (queue : Fetched QueueData) (students : Fetched StudentsData)
    (hw : workload.failed = true) (hq : queue.failed = true) (hs : students.failed = true)
    (clock : String) (y : State → State)
    (h : y ∈ loadStatsSteps workload queue students clock) (a : State) :
    (y a).stats = a.stats := by
  rcases loadStatsSteps_failed_mem _ _ _ hw hq hs _ y h with h | h <;> subst h <;> rfl

theorem displayRecentActivity_view (js : Host) (activities : Option (List Activity))
    (a b : State) (h : a.sectionView = b.sectionView) :
    (displayRecentActivity js activities a).sectionView =
      (displayRecentActivity js activities b).sectionView := by
  simp only [State.sectionView, SectionView.mk.injEq] at h
  obtain ⟨h₁, h₂, h₃, h₄, h₅, h₆, h₇, h₈, h₉⟩ := h
  unfold displayRecentActivity
  split <;> simp [State.sectionView, *]

theorem loadRecentActivitySettle_view (js : Host) (net : Fetched ActivityData) (a b : State)
    (h : a.sectionView = b.sectionView) :
    (loadRecentActivitySettle js net a).sectionView =
      (loadRecentActivitySettle js net b).sectionView := by
  unfold loadRecentActivitySettle
  split
  · simp only [State.sectionView, SectionView.mk.injEq] at h ⊢
    simp [h]
  · exact h
  · simp only [State.sectionView, SectionView.mk.injEq] at h ⊢
    simp [h]
  · exact displayRecentActivity_view js _ a b h

theorem displayTasks_view (js : Host) (tasks : Option (List Task)) (a b : State)
    (h : a.sectionView = b.sectionView) :
    (displayTasks js tasks a).sectionView = (displayTasks js tasks b).sectionView := by
  simp only [State.sectionView, SectionView.mk.injEq] at h
  obtain ⟨h₁, h₂, h₃, h₄, h₅, h₆, h₇, h₈, h₉⟩ := h
  unfold displayTasks
  split <;> simp [State.sectionView, *]

theorem loadAllTasksSettle_view (js : Host) (net : Fetched TasksData) (a b : State)
    (h : a.sectionView = b.sectionView) :
    (loadAllTasksSettle js net a).sectionView = (loadAllTasksSettle js net b).sectionView := by
  unfold loadAllTasksSettle
  split
  · simp only [State.sectionView, SectionView.mk.injEq] at h ⊢
    simp [h]
  · exact h
  · simp only [State.sectionView, SectionView.mk.injEq] at h ⊢
    simp [h]
  · apply displayTasks_view
    simp only [State.sectionView, SectionView.mk.injEq] at h ⊢
    simp [h]

theorem displayStudents_view (js : Host) (students : Option (List Student)) (a b : State)
    (h : a.sectionView = b.sectionView) :
    (displayStudents js students a).sectionView =
      (displayStudents js students b).sectionView := by
  simp only [State.sectionView, SectionView.mk.injEq] at h
  obtain ⟨h₁, h₂, h₃, h₄, h₅, h₆, h₇, h₈, h₉⟩ := h
  unfold displayStudents
  split <;> simp [State.sectionView, *]

theorem loadStudentsSettle_view (js : Host) (net : Fetched StudentsData) (a b : State)
    (h : a.sectionView = b.sectionView) :
    (loadStudentsSettle js net a).sectionView = (loadStudentsSettle js net b).sectionView := by
  unfold loadStudentsSettle
  split
  · simp only [State.sectionView, SectionView.mk.injEq] at h ⊢
    simp [h]
  · exact h
  · simp only [State.sectionView, SectionView.mk.injEq] at h ⊢
    simp [h]
  · apply displayStudents_view
    simp only [State.sectionView, SectionView.mk.injEq] at h ⊢
    simp [h]

theorem displayMediaGallery_view (js : Host) (media : Option (List MediaItem)) (a b : State)
    (h : a.sectionView = b.sectionView) :
    (displayMediaGallery js media a).sectionView =
      (displayMediaGallery js media b).sectionView := by
  simp only [State.sectionView, SectionView.mk.injEq] at h
  obtain ⟨h₁, h₂, h₃, h₄, h₅, h₆, h₇, h₈, h₉⟩ := h
  unfold displayMediaGallery
  split <;> simp [State.sectionView, *]

theorem loadMediaGallerySettle_view (js : Host) (net : Fetched MediaData) (a b : State)
    (h : a.sectionView = b.sectionView) :
    (loadMediaGallerySettle js net a).sectionView =
      (loadMediaGallerySettle js net b).sectionView := by
  unfold loadMediaGallerySettle
  split
  · simp only [State.sectionView, SectionView.mk.injEq] at h ⊢
    simp [h]
  · exact h
  · simp only [State.sectionView, SectionView.mk.injEq] at h ⊢
    simp [h]
  · apply displayMediaGallery_view
    simp only [State.sectionView, SectionView.mk.injEq] at h ⊢
    simp [h]

theorem loadAnalyticsSettle_view (net : Fetched AnalyticsData) (a b : State)
    (h : a.sectionView = b.sectionView) :
    (loadAnalyticsSettle net a).sectionView = (loadAnalyticsSettle net b).sectionView := by
  simp only [State.sectionView, SectionView.mk.injEq] at h
  obtain ⟨h₁, h₂, h₃, h₄, h₅, h₆, h₇, h₈, h₉⟩ := h
  unfold loadAnalyticsSettle displayAnalytics
  split <;> simp [State.sectionView, *]

theorem displayStaffList_view (js : Host) (staff : Option (List Staff)) (a b : State)
    (h : a.sectionView = b.sectionView) :
    (displayStaffList js staff a).sectionView = (displayStaffList js staff b).sectionView := by
  simp only [State.sectionView, SectionView.mk.injEq] at h
  obtain ⟨h₁, h₂, h₃, h₄, h₅, h₆, h₇, h₈, h₉⟩ := h
  unfold displayStaffList
  split <;> simp [State.sectionView, *]

theorem staffError_view (a b : State) (h : a.sectionView = b.sectionView) :
    ({ a with staffList := staffError } : State).sectionView =
      ({ b with staffList := staffError } : State).sectionView := by
  simp only [State.sectionView, SectionView.mk.injEq] at h
  obtain ⟨h₁, h₂, h₃, h₄, h₅, h₆, h₇, h₈, h₉⟩ := h
  simp [State.sectionView, *]

theorem loadStaffFallbackSettle_view (js : Host) (net : Fetched WorkloadData) (a b : State)
    (h : a.sectionView = b.sectionView) :
    (loadStaffFallbackSettle js net a).sectionView =
      (loadStaffFallbackSettle js net b).sectionView := by
  unfold loadStaffFallbackSettle
  split
  · exact staffError_view a b h
  · exact h
  · exact staffError_view a b h
  · exact displayStaffList_view js _ a b h

/-- What a step of the staff loader can be. -/
theorem loadStaffManagementSteps_mem (js : Host) (net : Fetched StaffData)
    (fallback : Fetched WorkloadData) (y : State → State)
    (h : y ∈ loadStaffManagementSteps js net fallback) :
    (y = fun st => { st with staffList := staffError }) ∨
      (∃ staff, y = displayStaffList js staff) ∨
      (y = fun st =>
        { st with requests := st.requests ++ [SERVER_URL st ++ "/staff/workload"] }) ∨
      y = loadStaffFallbackSettle js fallback := by
  unfold loadStaffManagementSteps at h
  split at h <;> simp only [List.mem_cons, List.mem_singleton, List.not_mem_nil, or_false] at h
  · exact Or.inl h
  · exact Or.inl h
  · exact Or.inr (Or.inl ⟨_, h⟩)
  · rcases h with h | h
    · exact Or.inr (Or.inr (Or.inl h))
    · exact Or.inr (Or.inr (Or.inr h))

theorem loadStaffManagementSteps_view (js : Host) (net : Fetched StaffData)
    (fallback : Fetched WorkloadData) (y : State → State)
    (h : y ∈ loadStaffManagementSteps js net fallback) (a b : State)
    (hab : a.sectionView = b.sectionView) : (y a).sectionView = (y b).sectionView := by
  rcases loadStaffManagementSteps_mem js net fallback y h with h | ⟨d, h⟩ | h | h <;> subst h
  · exact staffError_view a b hab
  · exact displayStaffList_view js _ a b hab
  · exact hab
  · exact loadStaffFallbackSettle_view js _ a b hab

/-- The effect of a step of a section loader on the section view depends on the
section view only. -/
theorem loadSectionDataSteps_respect_view (js : Host) (net : Network) (sectionId : String)
    (y : State → State) (h : y ∈ loadSectionDataSteps js net sectionId) (a b : State)
    (hab : a.sectionView = b.sectionView) : (y a).sectionView = (y b).sectionView := by
  unfold loadSectionDataSteps at h
  split_ifs at h
  · simp only [loadDashboardSteps, List.mem_append, List.mem_singleton] at h
    rcases h with h | h
    · rw [loadStatsSteps_keep_view _ _ _ _ y h, loadStatsSteps_keep_view _ _ _ _ y h, hab]
    · subst h
      exact loadRecentActivitySettle_view js _ a b hab
  · simp only [List.mem_singleton] at h
    subst h
    exact loadAllTasksSettle_view js _ a b hab
  · exact loadStaffManagementSteps_view js _ _ y h a b hab
  · simp only [List.mem_singleton] at h
    subst h
    exact loadStudentsSettle_view js _ a b hab
  · simp only [List.mem_singleton] at h
    subst h
    exact loadMediaGallerySettle_view js _ a b hab
  · simp only [List.mem_singleton] at h
    subst h
    exact loadAnalyticsSettle_view _ a b hab
  · simp at h

theorem displayRecentActivity_rest (js : Host) (data : Option (List Activity)) (a : State) :
    (fun st : State => (st.origin, st.requests, st.stats, st.lastUpdate))
        (displayRecentActivity js data a) =
      (a.origin, a.requests, a.stats, a.lastUpdate) := by
  unfold displayRecentActivity
  split <;> rfl

theorem loadRecentActivitySettle_rest (js : Host) (net : Fetched ActivityData) (a : State) :
    (fun st : State => (st.origin, st.requests, st.stats, st.lastUpdate))
        (loadRecentActivitySettle js net a) =
      (a.origin, a.requests, a.stats, a.lastUpdate) := by
  unfold loadRecentActivitySettle
  split
  · rfl
  · rfl
  · rfl
  · exact displayRecentActivity_rest js _ _

theorem displayTasks_rest (js : Host) (data : Option (List Task)) (a : State) :
    (fun st : State => (st.origin, st.requests, st.stats, st.lastUpdate))
        (displayTasks js data a) =
      (a.origin, a.requests, a.stats, a.lastUpdate) := by
  unfold displayTasks
  split <;> rfl

theorem loadAllTasksSettle_rest (js : Host) (net : Fetched TasksData) (a : State) :
    (fun st : State => (st.origin, st.requests, st.stats, st.lastUpdate))
        (loadAllTasksSettle js net a) =
      (a.origin, a.requests, a.stats, a.lastUpdate) := by
  unfold loadAllTasksSettle
  split
  · rfl
  · rfl
  · rfl
  · exact displayTasks_rest js _ _

theorem displayStudents_rest (js : Host) (data : Option (List Student)) (a : State) :
    (fun st : State => (st.origin, st.requests, st.stats, st.lastUpdate))
        (displayStudents js data a) =
      (a.origin, a.requests, a.stats, a.lastUpdate) := by
  unfold displayStudents
  split <;> rfl

theorem loadStudentsSettle_rest (js : Host) (net : Fetched StudentsData) (a : State) :
    (fun st : State => (st.origin, st.requests, st.stats, st.lastUpdate))
        (loadStudentsSettle js net a) =
      (a.origin, a.requests, a.stats, a.lastUpdate) := by
  unfold loadStudentsSettle
  split
  · rfl
  · rfl
  · rfl
  · exact displayStudents_rest js _ _

theorem displayMediaGallery_rest (js : Host) (data : Option (List MediaItem)) (a : State) :
    (fun st : State => (st.origin, st.requests, st.stats, st.lastUpdate))
        (displayMediaGallery js data a) =
      (a.origin, a.requests, a.stats, a.lastUpdate) := by
  unfold displayMediaGallery
  split <;> rfl

theorem loadMediaGallerySettle_rest (js : Host) (net : Fetched MediaData) (a : State) :
    (fun st : State => (st.origin, st.requests, st.stats, st.lastUpdate))
        (loadMediaGallerySettle js net a) =
      (a.origin, a.requests, a.stats, a.lastUpdate) := by
  unfold loadMediaGallerySettle
  split
  · rfl
  · rfl
  · rfl
  · exact displayMediaGallery_rest js _ _

theorem loadAnalyticsSettle_rest (net : Fetched AnalyticsData) (a : State) :
    (fun st : State => (st.origin, st.requests, st.stats, st.lastUpdate))
        (loadAnalyticsSettle net a) =
      (a.origin, a.requests, a.stats, a.lastUpdate) := by
  unfold loadAnalyticsSettle displayAnalytics
  split <;> rfl

theorem displayStaffList_rest (js : Host) (staff : Option (List Staff)) (a : State) :
    (fun st : State => (st.origin, st.requests, st.stats, st.lastUpdate))
        (displayStaffList js staff a) =
      (a.origin, a.requests, a.stats, a.lastUpdate) := by
  unfold displayStaffList
  split <;> rfl

theorem loadStaffFallbackSettle_rest (js : Host) (net : Fetched WorkloadData) (a : State) :
    (fun st : State => (st.origin, st.requests, st.stats, st.lastUpdate))
        (loadStaffFallbackSettle js net a) =
      (a.origin, a.requests, a.stats, a.lastUpdate) := by
  unfold loadStaffFallbackSettle
  split
  · rfl
  · rfl
  · rfl
  · exact displayStaffList_rest js _ a

/-- A step of a section loader other than the one of the dashboard writes no
counter and not the time text. -/
theorem loadSectionDataSteps_keep_stats (js : Host) (net : Network) (sectionId : String)
    (hid : sectionId ≠ "dashboard") (y : State → State)
    (h : y ∈ loadSectionDataSteps js net sectionId) (a : State) :
    ((y a).stats, (y a).lastUpdate) = (a.stats, a.lastUpdate) := by
  unfold loadSectionDataSteps at h
  rw [if_neg hid] at h
  split_ifs at h
  · simp only [List.mem_singleton] at h
    subst h
    exact congrArg (fun p => (p.2.2.1, p.2.2.2)) (loadAllTasksSettle_rest js _ a)
  · rcases loadStaffManagementSteps_mem js _ _ y h with h | ⟨d, h⟩ | h | h <;> subst h
    · rfl
    · exact congrArg (fun p => (p.2.2.1, p.2.2.2)) (displayStaffList_rest js _ a)
    · rfl
    · exact congrArg (fun p => (p.2.2.1, p.2.2.2)) (loadStaffFallbackSettle_rest js _ a)
  · simp only [List.mem_singleton] at h
    subst h
    exact congrArg (fun p => (p.2.2.1, p.2.2.2)) (loadStudentsSettle_rest js _ a)
  · simp only [List.mem_singleton] at h
    subst h
    exact congrArg (fun p => (p.2.2.1, p.2.2.2)) (loadMediaGallerySettle_rest js _ a)
  · simp only [List.mem_singleton] at h
    subst h
    exact congrArg (fun p => (p.2.2.1, p.2.2.2)) (loadAnalyticsSettle_rest _ a)
  · simp at h

/-- When every request of the section fails, no step of its loader writes a
counter. -/
theorem loadSectionDataSteps_failed_keep_stats (js : Host) (net : Network)
    (hfail : net.allFailed = true) (sectionId : String) (y : State → State)
    (h : y ∈ loadSectionDataSteps js net sectionId) (a : State) :
    (y a).stats = a.stats := by
  by_cases hid : sectionId = "dashboard"
  · subst hid
    simp only [Network.allFailed, Bool.and_eq_true] at hfail
    obtain ⟨⟨⟨⟨⟨⟨⟨hw, hq⟩, hs⟩, -⟩, -⟩, -⟩, -⟩, -⟩ := hfail
    simp only [loadSectionDataSteps, if_true, loadDashboardSteps, List.mem_append,
      List.mem_singleton] at h
    rcases h with h | h
    · exact loadStatsSteps_failed_keep_stats _ _ _ hw hq hs _ y h a
    · subst h
      exact congrArg (fun p => p.2.2.1) (loadRecentActivitySettle_rest js _ a)
  · exact congrArg Prod.fst (loadSectionDataSteps_keep_stats js net sectionId hid y h a)

/-- The effect of a step of a section loader on the request log depends on the
origin and the log only. -/
theorem loadSectionDataSteps_respect_requests (js : Host) (net : Network)
    (sectionId : String) (y : State → State)
    (h : y ∈ loadSectionDataSteps js net sectionId) (a b : State)
    (hab : (a.origin, a.requests) = (b.origin, b.requests)) :
    ((y a).origin, (y a).requests) = ((y b).origin, (y b).requests) := by
  have keep : (∀ c, (fun st : State => (st.origin, st.requests, st.stats, st.lastUpdate))
      (y c) = (c.origin, c.requests, c.stats, c.lastUpdate)) →
      ((y a).origin, (y a).requests) = ((y b).origin, (y b).requests) := by
    intro hk
    have ha := congrArg (fun p => (p.1, p.2.1)) (hk a)
    have hb := congrArg (fun p => (p.1, p.2.1)) (hk b)
    simp only at ha hb
    rw [ha, hb, hab]
  unfold loadSectionDataSteps at h
  split_ifs at h
  · simp only [loadDashboardSteps, List.mem_append, List.mem_singleton] at h
    rcases h with h | h
    · rw [loadStatsSteps_keep_requests _ _ _ _ y h, loadStatsSteps_keep_requests _ _ _ _ y h, hab]
    · subst h
      exact keep (loadRecentActivitySettle_rest js _)
  · simp only [List.mem_singleton] at h
    subst h
    exact keep (loadAllTasksSettle_rest js _)
  · rcases loadStaffManagementSteps_mem js _ _ y h with h | ⟨d, h⟩ | h | h <;> subst h
    · exact hab
    · exact keep (displayStaffList_rest js _)
    · simp only [Prod.mk.injEq] at hab
      simp [SERVER_URL, hab.1, hab.2]
    · exact keep (loadStaffFallbackSettle_rest js _)
  · simp only [List.mem_singleton] at h
    subst h
    exact keep (loadStudentsSettle_rest js _)
  · simp only [List.mem_singleton] at h
    subst h
    exact keep (loadMediaGallerySettle_rest js _)
  · simp only [List.mem_singleton] at h
    subst h
    exact keep (loadAnalyticsSettle_rest _)
  · simp at h

/-- The requests a section loader issues from its answers on. -/
theorem loadSectionDataSteps_requests (js : Host) (net : Network) (sectionId : String)
    (a : State) :
    (runSteps (loadSectionDataSteps js net sectionId) a).requests =
      a.requests ++ sectionLateRequests net sectionId a := by
  have keep : ∀ f : State → State,
      (∀ c, (fun st : State => (st.origin, st.requests, st.stats, st.lastUpdate))
        (f c) = (c.origin, c.requests, c.stats, c.lastUpdate)) →
      (runSteps [f] a).requests = a.requests := by
    intro f hk
    exact congrArg (fun p => p.2.1) (hk a)
  by_cases hstaff : sectionId = "staff"
  · subst hstaff
    have hsteps : loadSectionDataSteps js net "staff" =
        loadStaffManagementSteps js net.allStaff net.workload := by
      simp [loadSectionDataSteps]
    rw [hsteps]
    simp only [sectionLateRequests, if_true]
    unfold loadStaffManagementSteps
    rcases net.allStaff with _ | ⟨ok, body⟩
    · simp [runSteps]
    · cases ok <;> cases body
      · simp only [runSteps_cons, runSteps_nil]
        exact congrArg (fun p => p.2.1) (loadStaffFallbackSettle_rest js _ _)
      · simp only [runSteps_cons, runSteps_nil]
        exact congrArg (fun p => p.2.1) (loadStaffFallbackSettle_rest js _ _)
      · simp [runSteps]
      · simp only [runSteps_cons, runSteps_nil, List.append_nil]
        exact congrArg (fun p => p.2.1) (displayStaffList_rest js _ _)
  · simp only [sectionLateRequests, if_neg hstaff, List.append_nil]
    unfold loadSectionDataSteps
    rw [if_neg hstaff]
    split_ifs
    · have := runSteps_keeps (fun st : State => (st.origin, st.requests))
        (loadDashboardSteps js net) (fun y hy c => by
          simp only [loadDashboardSteps, List.mem_append, List.mem_singleton] at hy
          rcases hy with hy | hy
          · exact loadStatsSteps_keep_requests _ _ _ _ y hy c
          · subst hy
            exact congrArg (fun p => (p.1, p.2.1)) (loadRecentActivitySettle_rest js _ c)) a
      exact congrArg Prod.snd this
    · exact keep _ (loadAllTasksSettle_rest js _)
    · exact keep _ (loadStudentsSettle_rest js _)
    · exact keep _ (loadMediaGallerySettle_rest js _)
    · exact keep _ (loadAnalyticsSettle_rest _)
    · rfl

/-- The requests a section loader issues when it is called. -/
theorem loadSectionDataStart_requests (sectionId : String) (st : State) :
    (loadSectionDataStart sectionId st).requests =
        st.requests ++ sectionStartRequests sectionId st ∧
      (loadSectionDataStart sectionId st).origin = st.origin := by
  unfold loadSectionDataStart sectionStartRequests
  split_ifs
  · refine ⟨?_, rfl⟩
    simp [loadDashboardStart, loadCharts, loadRecentActivityStart, loadStatsStart, statsRequests,
      SERVER_URL]
  · exact ⟨rfl, rfl⟩
  · exact ⟨rfl, rfl⟩
  · exact ⟨rfl, rfl⟩
  · exact ⟨rfl, rfl⟩
  · exact ⟨rfl, rfl⟩
  · exact ⟨by simp, rfl⟩

/-- The start of a section loader writes no part of the page. -/
theorem loadSectionDataStart_frame (sectionId : String) (st : State) :
    ∃ requests, loadSectionDataStart sectionId st = { st with requests := requests } := by
  unfold loadSectionDataStart
  split_ifs
  · exact ⟨_, rfl⟩
  · exact ⟨_, rfl⟩
  · exact ⟨_, rfl⟩
  · exact ⟨_, rfl⟩
  · exact ⟨_, rfl⟩
  · exact ⟨_, rfl⟩
  · exact ⟨st.requests, rfl⟩

/-! ## The refresh tick -/

theorem refreshAll_thrown (js : Host) (sectionNet statsNet : Network) (clock : String)
    (st : State) : (refreshAll js sectionNet statsNet clock st).thrown = none := by
  unfold refreshAll
  split <;> rfl

theorem tickSteps_keep_view (statsNet : Network) (clock : String) (y : State → State)
    (h : y ∈ loadStatsSteps statsNet.workload statsNet.queueStatus statsNet.allStudents
      statsNet.clock ++ [updateLastUpdateTime clock]) (a : State) :
    (y a).sectionView = a.sectionView := by
  simp only [List.mem_append, List.mem_singleton] at h
  rcases h with h | h
  · exact loadStatsSteps_keep_view _ _ _ _ y h a
  · subst h
    rfl

theorem tickSteps_keep_requests (statsNet : Network) (clock : String) (y : State → State)
    (h : y ∈ loadStatsSteps statsNet.workload statsNet.queueStatus statsNet.allStudents
      statsNet.clock ++ [updateLastUpdateTime clock]) (a : State) :
    ((y a).origin, (y a).requests) = (a.origin, a.requests) := by
  simp only [List.mem_append, List.mem_singleton] at h
  rcases h with h | h
  · exact loadStatsSteps_keep_requests _ _ _ _ y h a
  · subst h
    rfl

theorem tickSteps_respect_stats (statsNet : Network) (clock : String) (y : State → State)
    (h : y ∈ loadStatsSteps statsNet.workload statsNet.queueStatus statsNet.allStudents
      statsNet.clock ++ [updateLastUpdateTime clock]) (a b : State)
    (hab : (a.stats, a.lastUpdate) = (b.stats, b.lastUpdate)) :
    ((y a).stats, (y a).lastUpdate) = ((y b).stats, (y b).lastUpdate) := by
  simp only [List.mem_append, List.mem_singleton] at h
  rcases h with h | h
  · exact loadStatsSteps_respect_stats _ _ _ _ y h a b hab
  · subst h
    simp only [Prod.mk.injEq] at hab
    simp [updateLastUpdateTime, hab.1]

/-- With no section active the tick is `loadStats` followed by the writing of the
time. -/
theorem refreshAll_idle (js : Host) (sectionNet statsNet : Network) (clock : String)
    (st : State) (hact : st.activeSection = none) :
    (refreshAll js sectionNet statsNet clock st).state =
      updateLastUpdateTime clock
        (loadStats statsNet.workload statsNet.queueStatus statsNet.allStudents statsNet.clock
          st) := by
  simp only [refreshAll, hact, runSteps_append, runSteps_cons, runSteps_nil, loadStats_eq_steps]

theorem refreshAll_view_idle (js : Host) (sectionNet statsNet : Network) (clock : String)
    (st : State) (hact : st.activeSection = none) :
    (refreshAll js sectionNet statsNet clock st).state.sectionView = st.sectionView := by
  simp only [refreshAll, hact]
  exact runSteps_keeps State.sectionView _ (tickSteps_keep_view statsNet clock) _

/-- Whatever the order in which the answers arrive, the tick leaves the section
view the loader of the active section leaves when it runs alone. -/
theorem refreshAll_view (js : Host) (sectionNet statsNet : Network) (clock : String)
    (st : State) (sectionId : String) (hact : st.activeSection = some sectionId) :
    (refreshAll js sectionNet statsNet clock st).state.sectionView =
      (loadSectionData js sectionNet sectionId st).sectionView := by
  simp only [refreshAll, hact, loadSectionData_eq_steps]
  exact interleave_left State.sectionView _ _ _
    (loadSectionDataSteps_respect_view js sectionNet sectionId)
    (tickSteps_keep_view statsNet clock) _ _ rfl

/-- Whatever the order in which the answers arrive, the requests of the tick are
those the section loader issues when it is called, the three of `loadStats`, and
those the section loader issues after its first answer. -/
theorem refreshAll_requests (js : Host) (sectionNet statsNet : Network) (clock : String)
    (st : State) (sectionId : String) (hact : st.activeSection = some sectionId) :
    (refreshAll js sectionNet statsNet clock st).state.requests =
      st.requests ++ sectionStartRequests sectionId st ++ statsRequests st ++
        sectionLateRequests sectionNet sectionId st := by
  have h := interleave_left (fun st : State => (st.origin, st.requests)) sectionNet.arrival
    (loadSectionDataSteps js sectionNet sectionId)
    (loadStatsSteps statsNet.workload statsNet.queueStatus statsNet.allStudents
      statsNet.clock ++ [updateLastUpdateTime clock])
    (loadSectionDataSteps_respect_requests js sectionNet sectionId)
    (tickSteps_keep_requests statsNet clock)
    (loadStatsStart (loadSectionDataStart sectionId st))
    (loadStatsStart (loadSectionDataStart sectionId st)) rfl
  have h := congrArg Prod.snd h
  simp only at h
  simp only [refreshAll, hact]
  rw [h, loadSectionDataSteps_requests]
  obtain ⟨hreq, horigin⟩ := loadSectionDataStart_requests sectionId st
  simp only [loadStatsStart, statsRequests, sectionLateRequests, SERVER_URL, hreq, horigin]

/-- With a section other than the dashboard active, the counters and the time text
after the tick are those `loadStats` and the writing of the time leave. -/
theorem refreshAll_stats (js : Host) (sectionNet statsNet : Network) (clock : String)
    (st : State) (sectionId : String) (hact : st.activeSection = some sectionId)
    (hid : sectionId ≠ "dashboard") :
    (refreshAll js sectionNet statsNet clock st).state.stats =
        (loadStats statsNet.workload statsNet.queueStatus statsNet.allStudents statsNet.clock
          st).stats ∧
      (refreshAll js sectionNet statsNet clock st).state.lastUpdate = clock := by
  have h := interleave_right (fun st : State => (st.stats, st.lastUpdate)) sectionNet.arrival
    (loadSectionDataSteps js sectionNet sectionId)
    (loadStatsSteps statsNet.workload statsNet.queueStatus statsNet.allStudents
      statsNet.clock ++ [updateLastUpdateTime clock])
    (loadSectionDataSteps_keep_stats js sectionNet sectionId hid)
    (tickSteps_respect_stats statsNet clock)
    (loadStatsStart (loadSectionDataStart sectionId st)) (loadStatsStart st)
    (by
      obtain ⟨r, hr⟩ := loadSectionDataStart_frame sectionId st
      rw [hr]
      rfl)
  simp only [runSteps_append, runSteps_cons, runSteps_nil, ← loadStats_eq_steps,
    Prod.mk.injEq] at h
  simp only [refreshAll, hact]
  exact ⟨h.1, h.2⟩

/-- When every request of a tick fails no counter is written. -/
theorem refreshAll_failed_stats (js : Host) (sectionNet statsNet : Network) (clock : String)
    (st : State) (hsec : sectionNet.allFailed = true) (hstats : statsNet.allFailed = true) :
    (refreshAll js sectionNet statsNet clock st).state.stats = st.stats := by
  simp only [Network.allFailed, Bool.and_eq_true] at hstats
  obtain ⟨⟨⟨⟨⟨⟨⟨hw, hq⟩, hs⟩, -⟩, -⟩, -⟩, -⟩, -⟩ := hstats
  have htick : ∀ y ∈ loadStatsSteps statsNet.workload statsNet.queueStatus
      statsNet.allStudents statsNet.clock ++ [updateLastUpdateTime clock],
      ∀ a : State, (y a).stats = a.stats := by
    intro y hy a
    simp only [List.mem_append, List.mem_singleton] at hy
    rcases hy with hy | hy
    · exact loadStatsSteps_failed_keep_stats _ _ _ hw hq hs _ y hy a
    · subst hy
      rfl
  rcases hact : st.activeSection with _ | sectionId
  · simp only [refreshAll, hact]
    exact runSteps_keeps State.stats _ htick _
  · simp only [refreshAll, hact]
    rw [interleave_keeps State.stats _ _ _
      (loadSectionDataSteps_failed_keep_stats js sectionNet hsec sectionId) htick]
    obtain ⟨r, hr⟩ := loadSectionDataStart_frame sectionId st
    rw [hr]
    rfl

/-- C15, on a tick of the tasks section whose requests all reject: the container
showed the card of a task before the tick and shows the error placeholder after
it. -/
theorem refreshAll_rejection_overwrites_view :
    sectionContainer "tasks" tasksSectionPage = some (taskCard asciiHost sampleTask) ∧
      sectionContainer "tasks"
          (refreshAll asciiHost rejectingNetwork rejectingNetwork "12:00:05"
            tasksSectionPage).state =
        some tasksError ∧
      sectionContainer "tasks"
          (refreshAll asciiHost rejectingNetwork rejectingNetwork "12:00:05"
            tasksSectionPage).state ≠
        sectionContainer "tasks" tasksSectionPage := by
  refine ⟨by rfl, by rfl, ?_⟩
  have h₁ : sectionContainer "tasks"
      (refreshAll asciiHost rejectingNetwork rejectingNetwork "12:00:05"
        tasksSectionPage).state = some tasksError := by rfl
  have h₂ : sectionContainer "tasks" tasksSectionPage =
      some (taskCard asciiHost sampleTask) := by rfl
  rw [h₁, h₂]
  decide

/-- C15, amended: a refresh tick whose requests all fail, by rejection or by a
non-success status, ends without an exception whatever the active section. When
the request of the active section rejects, the previous view is replaced: the
container of the tasks, staff, students and media sections shows the `Failed to
load` placeholder of the section and the recent-activity list of the dashboard
shows `No recent activity`. The analytics container, the counters and the three
caches are left as they were. -/
theorem refreshAll_failed_tick (js : Host) (sectionNet statsNet : Network) (clock : String)
    (st : State) (hsec : sectionNet.allFailed = true) (hstats : statsNet.allFailed = true) :
    (refreshAll js sectionNet statsNet clock st).thrown = none ∧
      (st.activeSection = some "tasks" → sectionNet.allTasks = .rejected →
        (refreshAll js sectionNet statsNet clock st).state.tasksList = tasksError) ∧
      (st.activeSection = some "students" → sectionNet.allStudents = .rejected →
        (refreshAll js sectionNet statsNet clock st).state.studentsList = studentsError) ∧
      (st.activeSection = some "media" → sectionNet.mediaGallery = .rejected →
        (refreshAll js sectionNet statsNet clock st).state.mediaGallery = mediaError) ∧
      (st.activeSection = some "staff" → sectionNet.allStaff = .rejected →
        (refreshAll js sectionNet statsNet clock st).state.staffList = staffError) ∧
      (st.activeSection = some "staff" → sectionNet.workload = .rejected →
        (refreshAll js sectionNet statsNet clock st).state.staffList = staffError) ∧
      (st.activeSection = some "dashboard" → sectionNet.recentActivity = .rejected →
        (refreshAll js sectionNet statsNet clock st).state.recentActivityList =
          noRecentActivity) ∧
      (refreshAll js sectionNet statsNet clock st).state.analyticsContent =
        st.analyticsContent ∧
      (refreshAll js sectionNet statsNet clock st).state.stats = st.stats ∧
      (refreshAll js sectionNet statsNet clock st).state.allTasks = st.allTasks ∧
      (refreshAll js sectionNet statsNet clock st).state.allStudents = st.allStudents ∧
      (refreshAll js sectionNet statsNet clock st).state.allMedia = st.allMedia := by
  have hthrown := refreshAll_thrown js sectionNet statsNet clock st
  have hstats := refreshAll_failed_stats js sectionNet statsNet clock st hsec hstats
  have hview : ∃ tasks staff students media activity,
      (refreshAll js sectionNet statsNet clock st).state.sectionView =
        { st.sectionView with tasksList := tasks, staffList := staff, studentsList := students,
                              mediaGallery := media, recentActivityList := activity } := by
    rcases hact : st.activeSection with _ | sectionId
    · rw [refreshAll_view_idle js sectionNet statsNet clock st hact]
      exact ⟨_, _, _, _, _, rfl⟩
    · rw [refreshAll_view js sectionNet statsNet clock st sectionId hact]
      obtain ⟨r, t, a, b, c, d, e, hk⟩ := loadSectionData_failed js sectionNet hsec sectionId st
      rw [hk]
      exact ⟨_, _, _, _, _, rfl⟩
  have hfield : ∀ sectionId, st.activeSection = some sectionId →
      (refreshAll js sectionNet statsNet clock st).state.sectionView =
        (loadSectionData js sectionNet sectionId st).sectionView :=
    fun sectionId hact => refreshAll_view js sectionNet statsNet clock st sectionId hact
  simp only [Network.allFailed, Bool.and_eq_true] at hsec
  obtain ⟨⟨⟨⟨⟨⟨⟨hw, hq⟩, hs⟩, hr⟩, ht⟩, hf⟩, hm⟩, ha⟩ := hsec
  refine ⟨hthrown, ?_, ?_, ?_, ?_, ?_, ?_, ?_, hstats, ?_, ?_, ?_⟩
  · intro hact hrej
    have h := congrArg SectionView.tasksList (hfield _ hact)
    simp only [State.sectionView] at h
    rw [h]
    simp only [loadSectionData, loadAllTasks, hrej]
    rfl
  · intro hact hrej
    have h := congrArg SectionView.studentsList (hfield _ hact)
    simp only [State.sectionView] at h
    rw [h]
    simp only [loadSectionData, loadStudents, hrej]
    rfl
  · intro hact hrej
    have h := congrArg SectionView.mediaGallery (hfield _ hact)
    simp only [State.sectionView] at h
    rw [h]
    simp only [loadSectionData, loadMediaGallery, hrej]
    rfl
  · intro hact hrej
    have h := congrArg SectionView.staffList (hfield _ hact)
    simp only [State.sectionView] at h
    rw [h]
    simp only [loadSectionData, loadStaffManagement, hrej]
    rfl
  · intro hact hrej
    have h := congrArg SectionView.staffList (hfield _ hact)
    simp only [State.sectionView] at h
    rw [h]
    simp only [loadSectionData]
    rcases hall : sectionNet.allStaff with _ | ⟨ok, body⟩
    · simp only [loadStaffManagement, hall]
      rfl
    · rw [hall] at hf
      simp only [Fetched.failed, Bool.not_eq_true'] at hf
      subst hf
      simp only [loadStaffManagement, hall, hrej]
      rfl
  · intro hact hrej
    have h := congrArg SectionView.recentActivityList (hfield _ hact)
    simp only [State.sectionView] at h
    rw [h]
    simp only [loadSectionData, loadDashboard, loadCharts, loadRecentActivity, hrej]
    rfl
  · obtain ⟨a, b, c, d, e, hk⟩ := hview
    have h := congrArg SectionView.analyticsContent hk
    simpa only [State.sectionView] using h
  · obtain ⟨a, b, c, d, e, hk⟩ := hview
    have h := congrArg SectionView.allTasks hk
    simpa only [State.sectionView] using h
  · obtain ⟨a, b, c, d, e, hk⟩ := hview
    have h := congrArg SectionView.allStudents hk
    simpa only [State.sectionView] using h
  · obtain ⟨a, b, c, d, e, hk⟩ := hview
    have h := congrArg SectionView.allMedia hk
    simpa only [State.sectionView] using h

/-- C15, amended, at a concrete input: the tick of the tasks section whose
requests all reject ends without an exception and leaves the error placeholder in
the `tasksList` container. -/
theorem refreshAll_failed_tick_witness :
    (refreshAll asciiHost rejectingNetwork rejectingNetwork "12:00:05" tasksSectionPage).thrown =
        none ∧
      (refreshAll asciiHost rejectingNetwork rejectingNetwork "12:00:05"
          tasksSectionPage).state.tasksList = tasksError :=
  have h := refreshAll_failed_tick asciiHost rejectingNetwork rejectingNetwork "12:00:05"
    tasksSectionPage (by rfl) (by rfl)
  ⟨h.1, h.2.1 (by rfl) (by rfl)⟩

theorem refused_eq {β : Type} (net : Fetched β) (h : net.refused = true) :
    ∃ body, net = .response false body := by
  cases net with
  | rejected => simp [Fetched.refused] at h
  | response ok body =>
    simp only [Fetched.refused, Bool.not_eq_true'] at h
    subst h
    exact ⟨body, rfl⟩

/-- When every request is answered with a non-success status, a section loader
writes no container: it changes nothing but the request log and the time text. -/
theorem loadSectionData_refused (js : Host) (net : Network) (h : net.allRefused = true)
    (sectionId : String) (st : State) :
    ∃ requests time, loadSectionData js net sectionId st =
      { st with requests := requests, lastUpdate := time } := by
  simp only [Network.allRefused, Bool.and_eq_true] at h
  obtain ⟨⟨⟨⟨⟨⟨⟨hw, hq⟩, hs⟩, hr⟩, ht⟩, hf⟩, hm⟩, ha⟩ := h
  obtain ⟨bw, hw⟩ := refused_eq _ hw
  obtain ⟨bq, hq⟩ := refused_eq _ hq
  obtain ⟨bs, hs⟩ := refused_eq _ hs
  obtain ⟨br, hr⟩ := refused_eq _ hr
  obtain ⟨bt, ht⟩ := refused_eq _ ht
  obtain ⟨bf, hf⟩ := refused_eq _ hf
  obtain ⟨bm, hm⟩ := refused_eq _ hm
  obtain ⟨ba, ha⟩ := refused_eq _ ha
  unfold loadSectionData
  split_ifs
  · rw [loadDashboard, hw, hq, hs, hr]
    exact ⟨_, net.clock, rfl⟩
  · rw [ht]
    exact ⟨_, st.lastUpdate, rfl⟩
  · rw [hf, hw]
    exact ⟨_, st.lastUpdate, rfl⟩
  · rw [hs]
    exact ⟨_, st.lastUpdate, rfl⟩
  · rw [hm]
    exact ⟨_, st.lastUpdate, rfl⟩
  · rw [ha]
    exact ⟨_, st.lastUpdate, rfl⟩
  · exact ⟨st.requests, st.lastUpdate, rfl⟩

/-- A tick whose requests are all answered with a non-success status leaves every
container as it was. -/
theorem refreshAll_refused_tick (js : Host) (sectionNet statsNet : Network) (clock : String)
    (st : State) (hsec : sectionNet.allRefused = true)
    (sectionId : String) :
    sectionContainer sectionId (refreshAll js sectionNet statsNet clock st).state =
      sectionContainer sectionId st := by
  have hview : (refreshAll js sectionNet statsNet clock st).state.sectionView =
      st.sectionView := by
    rcases hact : st.activeSection with _ | active
    · exact refreshAll_view_idle js sectionNet statsNet clock st hact
    · rw [refreshAll_view js sectionNet statsNet clock st active hact]
      obtain ⟨r, t, hk⟩ := loadSectionData_refused js sectionNet hsec active st
      rw [hk]
      rfl
  simp only [State.sectionView, SectionView.mk.injEq] at hview
  obtain ⟨h₁, h₂, h₃, h₄, h₅, h₆, h₇, h₈, h₉⟩ := hview
  simp only [sectionContainer, h₁, h₃, h₅, h₇, h₈, h₉]


/-- C16: `loadSectionData` runs `loadDashboard`, `loadAllTasks`,
`loadStaffManagement`, `loadStudents`, `loadMediaGallery` and `loadAnalytics` for
the section ids `dashboard`, `tasks`, `staff`, `students`, `media` and `analytics`
and nothing for any other id. A tick of the `refreshAll` in effect ends without an
exception. With a section active, whatever the order in which the answers arrive,
its requests are those the loader of the section issues when it is called, then
the three of `loadStats`, then the one the staff loader issues to the old endpoint
after a non-success status; the containers and caches end as the loader of the
section alone leaves them; and, for a section other than the dashboard, the
counters are those `loadStats` leaves and the time text is the one of the tick.
With no section active the tick is `loadStats` followed by the writing of the
time, where the definition it replaces raises a `TypeError`. -/
theorem refreshAll_runs_section_and_stats (js : Host) (sectionNet statsNet : Network)
    (clock : String) (st : State) :
    loadSectionData js sectionNet "dashboard" st = loadDashboard js sectionNet st ∧
      loadSectionData js sectionNet "tasks" st = loadAllTasks js sectionNet.allTasks st ∧
      loadSectionData js sectionNet "staff" st =
        loadStaffManagement js sectionNet.allStaff sectionNet.workload st ∧
      loadSectionData js sectionNet "students" st = loadStudents js sectionNet.allStudents st ∧
      loadSectionData js sectionNet "media" st =
        loadMediaGallery js sectionNet.mediaGallery st ∧
      loadSectionData js sectionNet "analytics" st = loadAnalytics sectionNet.analytics st ∧
      (∀ sectionId : String,
        sectionId ∉ ["dashboard", "tasks", "staff", "students", "media", "analytics"] →
        loadSectionData js sectionNet sectionId st = st) ∧
      (refreshAll js sectionNet statsNet clock st).thrown = none ∧
      (∀ sectionId : String, st.activeSection = some sectionId →
        (refreshAll js sectionNet statsNet clock st).state.requests =
          st.requests ++ sectionStartRequests sectionId st ++ statsRequests st ++
            sectionLateRequests sectionNet sectionId st) ∧
      (∀ sectionId : String, st.activeSection = some sectionId →
        (refreshAll js sectionNet statsNet clock st).state.sectionView =
          (loadSectionData js sectionNet sectionId st).sectionView) ∧
      (∀ sectionId : String, st.activeSection = some sectionId → sectionId ≠ "dashboard" →
        (refreshAll js sectionNet statsNet clock st).state.stats =
            (loadStats statsNet.workload statsNet.queueStatus statsNet.allStudents
              statsNet.clock st).stats ∧
          (refreshAll js sectionNet statsNet clock st).state.lastUpdate = clock) ∧
      (st.activeSection = none →
        (refreshAll js sectionNet statsNet clock st).state =
          updateLastUpdateTime clock
            (loadStats statsNet.workload statsNet.queueStatus statsNet.allStudents
              statsNet.clock st)) ∧
      (st.activeSection = none →
        (refreshAllShadowed js sectionNet statsNet clock st).thrown = some .typeError) := by
  refine ⟨rfl, rfl, rfl, rfl, rfl, rfl, ?_, refreshAll_thrown js sectionNet statsNet clock st,
    refreshAll_requests js sectionNet statsNet clock st,
    refreshAll_view js sectionNet statsNet clock st,
    refreshAll_stats js sectionNet statsNet clock st,
    refreshAll_idle js sectionNet statsNet clock st, ?_⟩
  · intro sectionId h
    simp only [List.mem_cons, List.mem_singleton, List.not_mem_nil, or_false, not_or] at h
    obtain ⟨h₁, h₂, h₃, h₄, h₅, h₆⟩ := h
    simp [loadSectionData, h₁, h₂, h₃, h₄, h₅, h₆]
  · intro hact
    simp only [refreshAllShadowed, hact]

/-- C16 at concrete inputs. On a tick of the staff section whose staff endpoint
answers with a non-success status, the request to the old endpoint comes after
the three of `loadStats`, the staff list is the one `loadStaffManagement` alone
leaves and the counters are those of the statistics answers; with the settings
section, which has no loader, `loadSectionData` leaves the page as it is; with no
section active the three requests of `loadStats` are issued. -/
theorem refreshAll_runs_section_and_stats_witness :
    staffSectionPage.activeSection = some "staff" ∧
      (refreshAll asciiHost staffRefusedNetwork countingNetwork "12:00:05"
          staffSectionPage).state.requests =
        ["http://localhost:5000/admin/all_staff", "http://localhost:5000/staff/workload",
         "http://localhost:5000/queue/status", "http://localhost:5000/admin/all_students",
         "http://localhost:5000/staff/workload"] ∧
      (refreshAll asciiHost staffRefusedNetwork countingNetwork "12:00:05"
          staffSectionPage).state.staffList =
        "<div class=\"loading\">No staff members found</div>" ∧
      (refreshAll asciiHost staffRefusedNetwork countingNetwork "12:00:05"
          staffSectionPage).state.stats.totalStaff = some "3" ∧
      loadSectionData asciiHost rejectingNetwork "settings" samplePage = samplePage ∧
      idlePage.activeSection = none ∧
      (refreshAll asciiHost rejectingNetwork countingNetwork "12:00:05" idlePage).state.requests =
        ["http://localhost:5000/staff/workload", "http://localhost:5000/queue/status",
         "http://localhost:5000/admin/all_students"] :=
  have h := refreshAll_runs_section_and_stats asciiHost staffRefusedNetwork countingNetwork
    "12:00:05" staffSectionPage
  have hidle := refreshAll_runs_section_and_stats asciiHost rejectingNetwork countingNetwork
    "12:00:05" idlePage
  have hsettings := refreshAll_runs_section_and_stats asciiHost rejectingNetwork
    rejectingNetwork "12:00:05" samplePage
  ⟨rfl, (h.2.2.2.2.2.2.2.2.1 "staff" rfl).trans (by rfl),
    (congrArg SectionView.staffList (h.2.2.2.2.2.2.2.2.2.1 "staff" rfl)).trans (by rfl),
    (congrArg StatsPanel.totalStaff (h.2.2.2.2.2.2.2.2.2.2.1 "staff" rfl (by decide)).1).trans
      (by rfl),
    hsettings.2.2.2.2.2.2.1 "settings" (by decide), rfl,
    (congrArg State.requests (hidle.2.2.2.2.2.2.2.2.2.2.2.1 rfl)).trans (by rfl)⟩

end AdminScript
